import Mathlib

/-!
Verification of the channel-to-radio assignment and configuration merge of
`internal/gateway/pf_config.go` (lora-gateway-bridge).

The Go code is shallowly embedded below.  Go `int` values are modelled as
`Int` (every division in the source is an exact division by 2 of an even
number, so the rounding mode of integer division is immaterial).  The
modulation enum of the `band` package is a string type, modelled as `String`.
-/

namespace PFConfig

/-- `band.LoRaModulation` ("LORA"). -/
def LoRaModulation : String := "LORA"

/-- `band.FSKModulation` ("FSK"). -/
def FSKModulation : String := "FSK"

/-- `gw.Channel`: the fields of the channel plan entries that
`getGatewayConfig` reads.  `Frequency` is in Hz, `Bandwidth` in kHz. -/
structure Channel where
  Modulation : String
  Frequency : Int
  Bandwidth : Int
  Bitrate : Int
  SpreadingFactors : List Int
deriving Repr, DecidableEq

/-- `radioBandwidthPerChannelBandwidth`: the fixed map from channel bandwidth
(Hz) to the bandwidth a single radio can cover (map lookup, `ok` flag as
`Option`). -/
def radioBandwidthPerChannelBandwidth (channelBandwidth : Int) : Option Int :=
  if channelBandwidth = 500000 then some 1100000
  else if channelBandwidth = 250000 then some 1000000
  else if channelBandwidth = 125000 then some 925000
  else none

/-- `defaultRadioBandwidth`. -/
def defaultRadioBandwidth : Int := 925000

/-- The map lookup together with its `!ok` fallback, as it appears both in
`minRadioCenterFreq` and in `getGatewayConfig`. -/
def lookupRadioBandwidth (channelBandwidth : Int) : Int :=
  match radioBandwidthPerChannelBandwidth channelBandwidth with
  | some radioBandwidth => radioBandwidth
  | none => defaultRadioBandwidth

/-- `radioConfig`. -/
structure radioConfig where
  Enable : Bool
  Freq : Int
deriving Repr, DecidableEq

/-- `multiSFChannelConfig`.  `Radio` is a slice index, always non-negative,
modelled as `Nat`. -/
structure multiSFChannelConfig where
  Enable : Bool
  Radio : Nat
  IF : Int
  Freq : Int
deriving Repr, DecidableEq

/-- `loRaSTDChannelConfig`. -/
structure loRaSTDChannelConfig where
  Enable : Bool
  Radio : Nat
  IF : Int
  Bandwidth : Int
  SpreadFactor : Int
  Freq : Int
deriving Repr, DecidableEq

/-- `fskChannelConfig`. -/
structure fskChannelConfig where
  Enable : Bool
  Radio : Nat
  IF : Int
  Bandwidth : Int
  DataRate : Int
  Freq : Int
deriving Repr, DecidableEq

/-- `gatewayConfiguration`. -/
structure gatewayConfiguration where
  Radios : List radioConfig
  MultiSFChannels : List multiSFChannelConfig
  LoRaSTDChannelConfig : loRaSTDChannelConfig
  FSKChannelConfig : fskChannelConfig
deriving Repr, DecidableEq

/-- The Go zero value `loRaSTDChannelConfig{}`. -/
def zeroLoRaSTD : loRaSTDChannelConfig := ⟨false, 0, 0, 0, 0, 0⟩

/-- The Go zero value `fskChannelConfig{}`. -/
def zeroFSK : fskChannelConfig := ⟨false, 0, 0, 0, 0, 0⟩

/-- The Go zero value `gatewayConfiguration{}` (`var gc gatewayConfiguration`). -/
def zeroGatewayConfiguration : gatewayConfiguration := ⟨[], [], zeroLoRaSTD, zeroFSK⟩

/-- Out-of-range default for list indexing (never reached: all stored radio
indices are in range, see the invariants proved below). -/
def zeroRadio : radioConfig := ⟨false, 0⟩

/-- `channelByMinRadioCenterFrequency.minRadioCenterFreq`: the center
frequency a radio would need when the channel sits on the left edge of the
radio bandwidth. -/
def minRadioCenterFreq (c : Channel) : Int :=
  let channelBandwidth := c.Bandwidth * 1000
  let radioBandwidth := lookupRadioBandwidth channelBandwidth
  c.Frequency - (channelBandwidth / 2) + (radioBandwidth / 2)

/-- The sort key order used by `channelByMinRadioCenterFrequency.Less`. -/
def chanKeyLE (a b : Channel) : Prop :=
  minRadioCenterFreq a ≤ minRadioCenterFreq b

instance : DecidableRel chanKeyLE := fun a b =>
  inferInstanceAs (Decidable (minRadioCenterFreq a ≤ minRadioCenterFreq b))

/-- Postcondition of `sort.Sort(channelByMinRadioCenterFrequency(...))`:
every pair of positions `i < j` satisfies `!Less(j, i)`, i.e. the keys are
ascending. -/
def channelsSorted (l : List Channel) : Prop :=
  List.Pairwise chanKeyLE l

instance (l : List Channel) : Decidable (channelsSorted l) :=
  inferInstanceAs (Decidable (List.Pairwise chanKeyLE l))

instance : IsTotal Channel chanKeyLE := ⟨fun _ _ => Int.le_total _ _⟩

instance : IsTrans Channel chanKeyLE := ⟨fun _ _ _ h1 h2 => le_trans h1 h2⟩

/-- The fit test of the radio search loop:
`channelMin >= r.Freq-(radioBandwidth/2) && channelMax <= r.Freq+(radioBandwidth/2)`. -/
def fitsRadio (r : radioConfig) (channelMin channelMax radioBandwidth : Int) : Bool :=
  decide (channelMin ≥ r.Freq - radioBandwidth / 2 ∧
          channelMax ≤ r.Freq + radioBandwidth / 2)

/-- The `for i, r := range gc.Radios` search with `break`: the index of the
first radio that fits, if any.  `i` is the index of the head of `radios`. -/
def findRadioAux (i : Nat) (radios : List radioConfig)
    (channelMin channelMax radioBandwidth : Int) : Option Nat :=
  match radios with
  | [] => none
  | r :: rest =>
    if fitsRadio r channelMin channelMax radioBandwidth then some i
    else findRadioAux (i + 1) rest channelMin channelMax radioBandwidth

/-- The radio-selection part of the loop body of `getGatewayConfig`: either
the first fitting existing radio is used, or a new enabled radio is appended
whose frequency is `c.Frequency - (channelBandwidth/2) + (radioBandwidth/2)`,
i.e. `channelMin + radioBandwidth/2`.  Returns the (possibly extended) radio
list and the selected index. -/
def selectRadio (radios : List radioConfig)
    (channelMin channelMax radioBandwidth : Int) : List radioConfig × Nat :=
  match findRadioAux 0 radios channelMin channelMax radioBandwidth with
  | some i => (radios, i)
  | none => (radios ++ [⟨true, channelMin + radioBandwidth / 2⟩], radios.length)

/-- One iteration of the channel loop of `getGatewayConfig` over the running
`gatewayConfiguration`. -/
def processChannel (gc : gatewayConfiguration) (c : Channel) :
    Except String gatewayConfiguration :=
  let channelBandwidth : Int := c.Bandwidth * 1000
  let channelMin : Int := c.Frequency - channelBandwidth / 2
  let channelMax : Int := c.Frequency + channelBandwidth / 2
  let radioBandwidth : Int := lookupRadioBandwidth channelBandwidth
  let sel := selectRadio gc.Radios channelMin channelMax radioBandwidth
  let radios := sel.1
  let radio := sel.2
  if c.Modulation = FSKModulation then
    if gc.FSKChannelConfig.Enable then
      Except.error "gateway: fsk channel already configured"
    else
      Except.ok { gc with
        Radios := radios
        FSKChannelConfig :=
          ⟨true, radio, c.Frequency - (radios.getD radio zeroRadio).Freq,
           c.Bandwidth, c.Bitrate, c.Frequency⟩ }
  else if c.Modulation = LoRaModulation ∧ c.SpreadingFactors.length = 1 then
    if gc.LoRaSTDChannelConfig.Enable then
      Except.error "gateway: lora std channel already configured"
    else
      Except.ok { gc with
        Radios := radios
        LoRaSTDChannelConfig :=
          ⟨true, radio, c.Frequency - (radios.getD radio zeroRadio).Freq,
           channelBandwidth, c.SpreadingFactors.headD 0, c.Frequency⟩ }
  else if c.Modulation = LoRaModulation then
    Except.ok { gc with
      Radios := radios
      MultiSFChannels := gc.MultiSFChannels ++
        [⟨true, radio, c.Frequency - (radios.getD radio zeroRadio).Freq,
          c.Frequency⟩] }
  else
    Except.error ("gateway: invalid modulation: " ++ c.Modulation)

/-- The channel loop of `getGatewayConfig`, after sorting. -/
def assignChannels : gatewayConfiguration → List Channel →
    Except String gatewayConfiguration
  | gc, [] => Except.ok gc
  | gc, c :: rest =>
    match processChannel gc c with
    | Except.ok gc' => assignChannels gc' rest
    | Except.error e => Except.error e

/-- `getGatewayConfig` applied to an already sorted channel list. -/
def getGatewayConfigSorted (channels : List Channel) :
    Except String gatewayConfiguration :=
  assignChannels zeroGatewayConfiguration channels

/-- `getGatewayConfig conf` sorts `conf.Channels` in place with `sort.Sort`
and then runs the channel loop.  `sort.Sort` guarantees only that the result
is a permutation of the input that is sorted with respect to `Less`; it is
documented as NOT stable (the tie order among equal keys is
implementation-defined).  The call is therefore modelled by its contract:
`res` is a possible result of `getGatewayConfig plan` iff some sorted
permutation of `plan` is mapped to `res` by the channel loop. -/
def GatewayConfigResult (plan : List Channel)
    (res : Except String gatewayConfiguration) : Prop :=
  ∃ l, List.Perm l plan ∧ channelsSorted l ∧ getGatewayConfigSorted l = res

/-! ### The configuration document and `mergeConfig` -/

/-- A JSON-like value of the packet-forwarder configuration document
(`map[string]interface{}` entries).  `obj` is the
`map[string]interface{}` case that the merge's type assertions test for. -/
inductive Node where
  | b : Bool → Node
  | i : Int → Node
  | s : String → Node
  | obj : List (String × Node) → Node

/-- A `map[string]interface{}`, as an association list (keys unique in any
document produced by the JSON parser; lookups take the first binding). -/
abbrev ConfMap := List (String × Node)

/-- Go map read `m[k]`. -/
def mapGet : ConfMap → String → Option Node
  | [], _ => none
  | (k', v) :: rest, k => if k' = k then some v else mapGet rest k

/-- Go map write `m[k] = v`: overwrite the existing binding, else add one. -/
def mapSet : ConfMap → String → Node → ConfMap
  | [], k, v => [(k, v)]
  | (k', v') :: rest, k, v =>
    if k' = k then (k, v) :: rest else (k', v') :: mapSet rest k v

/-- `configFile`: the two top-level mappings that `mergeConfig` touches. -/
structure configFile where
  SX1301Conf : ConfMap
  GatewayConf : ConfMap

/-- `fmt.Sprintf("radio_%d", i)`. -/
def radioKey (idx : Nat) : String := "radio_" ++ toString idx

/-- `fmt.Sprintf("chan_multiSF_%d", i)`. -/
def multiSFKey (idx : Nat) : String := "chan_multiSF_" ++ toString idx

/-- The two map writes of one radio iteration:
`radio["enable"] = r.Enable; radio["freq"] = r.Freq`. -/
def setRadioFields (m : ConfMap) (r : radioConfig) : ConfMap :=
  mapSet (mapSet m "enable" (Node.b r.Enable)) "freq" (Node.i r.Freq)

/-- The three map writes of one multi-SF iteration. -/
def setMultiSFFields (m : ConfMap) (c : multiSFChannelConfig) : ConfMap :=
  mapSet (mapSet (mapSet m "enable" (Node.b c.Enable))
    "radio" (Node.i c.Radio)) "if" (Node.i c.IF)

/-- The five map writes of the `chan_Lora_std` step. -/
def setStdFields (m : ConfMap) (c : loRaSTDChannelConfig) : ConfMap :=
  mapSet (mapSet (mapSet (mapSet (mapSet m "enable" (Node.b c.Enable))
    "radio" (Node.i c.Radio)) "if" (Node.i c.IF))
    "bandwidth" (Node.i c.Bandwidth)) "spread_factor" (Node.i c.SpreadFactor)

/-- The five map writes of the `chan_FSK` step. -/
def setFSKFields (m : ConfMap) (c : fskChannelConfig) : ConfMap :=
  mapSet (mapSet (mapSet (mapSet (mapSet m "enable" (Node.b c.Enable))
    "radio" (Node.i c.Radio)) "if" (Node.i c.IF))
    "bandwidth" (Node.i c.Bandwidth)) "datarate" (Node.i c.DataRate)

/-- The `for i, r := range newConfig.Radios` loop of `mergeConfig`.  On a
failed type assertion the loop stops and reports the offending key (the Go
error message `expected <key> to be of type map[string]interface` [with
braces] is modelled by the key itself); mutations of earlier iterations
stay. -/
def mergeRadiosAux : ConfMap → Nat → List radioConfig → ConfMap × Option String
  | sx, _, [] => (sx, none)
  | sx, idx, r :: rest =>
    match mapGet sx (radioKey idx) with
    | some (Node.obj m) =>
      mergeRadiosAux (mapSet sx (radioKey idx) (Node.obj (setRadioFields m r)))
        (idx + 1) rest
    | _ => (sx, some (radioKey idx))

/-- The `for i, c := range newConfig.MultiSFChannels` loop of `mergeConfig`. -/
def mergeMultiSFAux : ConfMap → Nat → List multiSFChannelConfig →
    ConfMap × Option String
  | sx, _, [] => (sx, none)
  | sx, idx, c :: rest =>
    match mapGet sx (multiSFKey idx) with
    | some (Node.obj m) =>
      mergeMultiSFAux (mapSet sx (multiSFKey idx) (Node.obj (setMultiSFFields m c)))
        (idx + 1) rest
    | _ => (sx, some (multiSFKey idx))

/-- The `chan_Lora_std` step of `mergeConfig`. -/
def mergeStd (sx : ConfMap) (c : loRaSTDChannelConfig) : ConfMap × Option String :=
  match mapGet sx "chan_Lora_std" with
  | some (Node.obj m) => (mapSet sx "chan_Lora_std" (Node.obj (setStdFields m c)), none)
  | _ => (sx, some "chan_Lora_std")

/-- The `chan_FSK` step of `mergeConfig`. -/
def mergeFSK (sx : ConfMap) (c : fskChannelConfig) : ConfMap × Option String :=
  match mapGet sx "chan_FSK" with
  | some (Node.obj m) => (mapSet sx "chan_FSK" (Node.obj (setFSKFields m c)), none)
  | _ => (sx, some "chan_FSK")

/-- `mergeConfig`.  The document is mutated in place in Go (the nested maps
are references); modelled by returning the updated document together with the
optional error.  On error the document reflects every step already applied
(no rollback).  `mac` is the gateway EUI64 already rendered by
`lorawan.EUI64.String()`. -/
def mergeConfig (mac : String) (config : configFile)
    (newConfig : gatewayConfiguration) : configFile × Option String :=
  let p1 := mergeRadiosAux config.SX1301Conf 0 newConfig.Radios
  match p1.2 with
  | some err => ({ config with SX1301Conf := p1.1 }, some err)
  | none =>
    let p2 := mergeMultiSFAux p1.1 0 newConfig.MultiSFChannels
    match p2.2 with
    | some err => ({ config with SX1301Conf := p2.1 }, some err)
    | none =>
      let p3 := mergeStd p2.1 newConfig.LoRaSTDChannelConfig
      match p3.2 with
      | some err => ({ config with SX1301Conf := p3.1 }, some err)
      | none =>
        let p4 := mergeFSK p3.1 newConfig.FSKChannelConfig
        match p4.2 with
        | some err => ({ config with SX1301Conf := p4.1 }, some err)
        | none =>
          ({ SX1301Conf := p4.1
             GatewayConf := mapSet config.GatewayConf "gateway_ID" (Node.s mac) },
           none)

/-! ### Derived notions used by the verified properties -/

/-- `channelMin` of the loop body: `c.Frequency - (c.Bandwidth*1000)/2`. -/
def channelMinFreq (c : Channel) : Int := c.Frequency - c.Bandwidth * 1000 / 2

/-- `channelMax` of the loop body: `c.Frequency + (c.Bandwidth*1000)/2`. -/
def channelMaxFreq (c : Channel) : Int := c.Frequency + c.Bandwidth * 1000 / 2

/-- The radio bandwidth the loop body derives from the channel bandwidth. -/
def channelRadioBandwidth (c : Channel) : Int :=
  lookupRadioBandwidth (c.Bandwidth * 1000)

/-- A channel the loop classifies into the FSK slot. -/
def isFSKChannel (c : Channel) : Bool := c.Modulation == FSKModulation

/-- A channel the loop classifies into the LoRa single-SF (std) slot. -/
def isSingleSFLoRa (c : Channel) : Bool :=
  c.Modulation == LoRaModulation && c.SpreadingFactors.length == 1

/-- A modulation value the loop recognizes. -/
def validModulation (c : Channel) : Prop :=
  c.Modulation = LoRaModulation ∨ c.Modulation = FSKModulation

instance (c : Channel) : Decidable (validModulation c) :=
  inferInstanceAs (Decidable (_ ∨ _))

instance {ε α : Type} [DecidableEq ε] [DecidableEq α] : DecidableEq (Except ε α)
  | Except.error a, Except.error b =>
    decidable_of_iff (a = b) (by simp [Except.error.injEq])
  | Except.error _, Except.ok _ => isFalse (fun h => Except.noConfusion h)
  | Except.ok _, Except.error _ => isFalse (fun h => Except.noConfusion h)
  | Except.ok a, Except.ok b =>
    decidable_of_iff (a = b) (by simp [Except.ok.injEq])

/-- The result is one of the two duplicate-slot errors of `getGatewayConfig`. -/
def DuplicateSlotRes (res : Except String gatewayConfiguration) : Prop :=
  res = Except.error "gateway: fsk channel already configured" ∨
  res = Except.error "gateway: lora std channel already configured"

instance (res : Except String gatewayConfiguration) :
    Decidable (DuplicateSlotRes res) :=
  inferInstanceAs (Decidable
    (res = Except.error "gateway: fsk channel already configured" ∨
     res = Except.error "gateway: lora std channel already configured"))

/-- The end-to-end example plan of the specification. -/
def examplePlan : List Channel :=
  [⟨LoRaModulation, 868100000, 125, 0, [7, 8, 9, 10, 11, 12]⟩,
   ⟨LoRaModulation, 868300000, 125, 0, [7]⟩,
   ⟨LoRaModulation, 868500000, 125, 0, [7, 8, 9, 10, 11, 12]⟩,
   ⟨FSKModulation, 868800000, 250, 50000, []⟩]

/-- The configuration the example plan produces. -/
def exampleResultGC : gatewayConfiguration :=
  { Radios := [⟨true, 868500000⟩]
    MultiSFChannels := [⟨true, 0, -400000, 868100000⟩, ⟨true, 0, 0, 868500000⟩]
    LoRaSTDChannelConfig := ⟨true, 0, -200000, 125000, 7, 868300000⟩
    FSKChannelConfig := ⟨true, 0, 300000, 250, 50000, 868800000⟩ }

/-- Two distinct channels with equal minimum-radio-center-frequency keys
(bandwidths 125 kHz and 250 kHz, frequencies 25 kHz apart). -/
def tieChannelA : Channel := ⟨LoRaModulation, 868100000, 125, 0, [7, 8]⟩

/-- See `tieChannelA`. -/
def tieChannelB : Channel := ⟨LoRaModulation, 868125000, 250, 0, [7, 8]⟩

/-- A channel whose modulation is neither LoRa nor FSK, with a sort key below
every key of `dupFSK1`/`dupFSK2`. -/
def badModChannel : Channel := ⟨"GFSK", 100000, 125, 0, []⟩

/-- An FSK channel. -/
def dupFSK1 : Channel := ⟨FSKModulation, 868800000, 250, 50000, []⟩

/-- A second FSK channel at a different frequency. -/
def dupFSK2 : Channel := ⟨FSKModulation, 869000000, 250, 50000, []⟩

/-- An LoRa channel with an empty spreading-factor list. -/
def zeroSFChannel : Channel := ⟨LoRaModulation, 868100000, 125, 0, []⟩

/-- The `SX1301_conf` keys the merge writes for the given engine output. -/
def touchedSXKeys (gc : gatewayConfiguration) : List String :=
  (List.range gc.Radios.length).map radioKey ++
  (List.range gc.MultiSFChannels.length).map multiSFKey ++
  ["chan_Lora_std", "chan_FSK"]

/-- A one-radio engine output used to exercise the merge. -/
def c9GC : gatewayConfiguration := ⟨[⟨true, 868500000⟩], [], zeroLoRaSTD, zeroFSK⟩

/-- A document with a `radio_0` node (holding a board-specific sibling field
`type`) and no `chan_Lora_std` node. -/
def c9Doc : configFile :=
  ⟨[("radio_0", Node.obj
      [("enable", Node.b false), ("freq", Node.i 0), ("type", Node.s "SX1257")])],
   [("gateway_ID", Node.s "0000000000000000")]⟩

/-- `c9Doc`'s `SX1301_conf` after the radio loop applied `c9GC`. -/
def c9Sx1 : ConfMap :=
  [("radio_0", Node.obj
    [("enable", Node.b true), ("freq", Node.i 868500000), ("type", Node.s "SX1257")])]

/-- A two-radio engine output used to exercise a mid-loop merge failure. -/
def c9GC2 : gatewayConfiguration :=
  ⟨[⟨true, 868500000⟩, ⟨true, 869500000⟩], [], zeroLoRaSTD, zeroFSK⟩

/-- A document with a `radio_0` node but no `radio_1` node. -/
def c9Doc2 : configFile :=
  ⟨[("radio_0", Node.obj [("enable", Node.b false), ("freq", Node.i 0)])],
   [("gateway_ID", Node.s "0000000000000000")]⟩

/-- `c9Doc2`'s `SX1301_conf` after the radio loop wrote radio 0 and stopped
at the missing `radio_1`. -/
def c9Sx2 : ConfMap :=
  [("radio_0", Node.obj [("enable", Node.b true), ("freq", Node.i 868500000)])]

/-- A document carrying board-specific extra keys and sibling fields, used to
exercise the merge frame. -/
def c3Doc : configFile :=
  ⟨[("radio_0", Node.obj
      [("enable", Node.b false), ("freq", Node.i 0), ("type", Node.s "SX1257")]),
    ("chan_Lora_std", Node.obj [("enable", Node.b false)]),
    ("chan_FSK", Node.obj [("enable", Node.b false)]),
    ("extra_cal", Node.s "calibration")],
   [("gateway_ID", Node.s "old"), ("server", Node.s "srv")]⟩

/-- The `SX1301_conf` map after the radio loop of `mergeConfig`. -/
def mergeStage1 (config : configFile) (gc : gatewayConfiguration) : ConfMap :=
  (mergeRadiosAux config.SX1301Conf 0 gc.Radios).1

/-- The `SX1301_conf` map after the multi-SF loop of `mergeConfig`. -/
def mergeStage2 (config : configFile) (gc : gatewayConfiguration) : ConfMap :=
  (mergeMultiSFAux (mergeStage1 config gc) 0 gc.MultiSFChannels).1

/-- The `SX1301_conf` map after the `chan_Lora_std` step of `mergeConfig`. -/
def mergeStage3 (config : configFile) (gc : gatewayConfiguration) : ConfMap :=
  (mergeStd (mergeStage2 config gc) gc.LoRaSTDChannelConfig).1

/-- The `SX1301_conf` map after the `chan_FSK` step of `mergeConfig`. -/
def mergeStage4 (config : configFile) (gc : gatewayConfiguration) : ConfMap :=
  (mergeFSK (mergeStage3 config gc) gc.FSKChannelConfig).1

/-- The node at key `k` is untouched, or it is a mapping in which every
field outside `fields` is untouched. -/
def SiblingsPreserved (orig res : ConfMap) (k : String) (fields : List String) : Prop :=
  mapGet res k = mapGet orig k ∨
  ∃ m m', mapGet orig k = some (Node.obj m) ∧ mapGet res k = some (Node.obj m') ∧
    ∀ f, f ∉ fields → mapGet m' f = mapGet m f

/-- Invariant of the channel loop: every recorded slot points into the radio
list with the IF offset relative to that radio's center, and every radio is
enabled. -/
def RadioInv (gc : gatewayConfiguration) : Prop :=
  (∀ s ∈ gc.MultiSFChannels, s.Radio < gc.Radios.length ∧
     s.IF = s.Freq - (gc.Radios.getD s.Radio zeroRadio).Freq) ∧
  (gc.LoRaSTDChannelConfig.Enable = true →
     gc.LoRaSTDChannelConfig.Radio < gc.Radios.length ∧
     gc.LoRaSTDChannelConfig.IF = gc.LoRaSTDChannelConfig.Freq -
       (gc.Radios.getD gc.LoRaSTDChannelConfig.Radio zeroRadio).Freq) ∧
  (gc.FSKChannelConfig.Enable = true →
     gc.FSKChannelConfig.Radio < gc.Radios.length ∧
     gc.FSKChannelConfig.IF = gc.FSKChannelConfig.Freq -
       (gc.Radios.getD gc.FSKChannelConfig.Radio zeroRadio).Freq) ∧
  (∀ r ∈ gc.Radios, r.Enable = true)

/-! ## Theorems -/

/-- Every admissible result of `getGatewayConfig` satisfies `P` as soon as
the channel loop maps every sorted permutation of the plan into `P`. -/
theorem gatewayConfigResult_forall {plan : List Channel}
    {P : Except String gatewayConfiguration → Prop}
    (h : ∀ l ∈ plan.permutations', channelsSorted l → P (getGatewayConfigSorted l)) :
    ∀ res, GatewayConfigResult plan res → P res := by
  rintro res ⟨l, hperm, hsort, heq⟩
  rw [← heq]
  exact h l (List.mem_permutations'.mpr hperm) hsort

/-- C8: the radio window lookup is a total function of the channel bandwidth:
1100000 for 500000, 1000000 for 250000, and 925000 for 125000 and for every
other input (the fixed table with its default). -/
theorem c8_radio_window_total :
    (∀ bw : Int, lookupRadioBandwidth bw =
       if bw = 500000 then 1100000 else if bw = 250000 then 1000000 else 925000) ∧
    lookupRadioBandwidth 125000 = 925000 := by
  constructor
  · intro bw
    by_cases h1 : bw = 500000
    · subst h1; decide
    · by_cases h2 : bw = 250000
      · subst h2; decide
      · by_cases h3 : bw = 125000
        · subst h3; decide
        · simp [lookupRadioBandwidth, radioBandwidthPerChannelBandwidth,
                defaultRadioBandwidth, h1, h2, h3]
  · decide

/-- C2: on the example plan the assignment succeeds with exactly one radio,
two multi-SF slots, an enabled single-SF slot and an enabled FSK slot, every
slot's IF offset being the channel frequency minus the radio center. -/
theorem c2_end_to_end_example :
    GatewayConfigResult examplePlan (Except.ok exampleResultGC) ∧
    (∀ res, GatewayConfigResult examplePlan res → res = Except.ok exampleResultGC) ∧
    exampleResultGC.Radios.length = 1 ∧
    exampleResultGC.MultiSFChannels.length = 2 ∧
    exampleResultGC.LoRaSTDChannelConfig.Enable = true ∧
    exampleResultGC.FSKChannelConfig.Enable = true ∧
    (∀ s ∈ exampleResultGC.MultiSFChannels,
       s.IF = s.Freq - (exampleResultGC.Radios.getD s.Radio zeroRadio).Freq) ∧
    exampleResultGC.LoRaSTDChannelConfig.IF =
      exampleResultGC.LoRaSTDChannelConfig.Freq -
        (exampleResultGC.Radios.getD exampleResultGC.LoRaSTDChannelConfig.Radio
          zeroRadio).Freq ∧
    exampleResultGC.FSKChannelConfig.IF =
      exampleResultGC.FSKChannelConfig.Freq -
        (exampleResultGC.Radios.getD exampleResultGC.FSKChannelConfig.Radio
          zeroRadio).Freq :=
  ⟨⟨examplePlan, List.Perm.refl _, by decide, by decide⟩,
   gatewayConfigResult_forall (by decide),
   by decide, by decide, by decide, by decide, by decide, by decide, by decide⟩

/-- C4 counterexample: the two channels `tieChannelA`, `tieChannelB` have
equal sort keys, and the modelled sort (Go `sort.Sort`, which guarantees a
sorted permutation but not stability) admits the flipped order `[B, A]` for
the input plan `[A, B]`; the two orders even produce different
configurations. -/
theorem c4_counterexample :
    minRadioCenterFreq tieChannelA = minRadioCenterFreq tieChannelB ∧
    tieChannelA ≠ tieChannelB ∧
    List.Perm [tieChannelB, tieChannelA] [tieChannelA, tieChannelB] ∧
    channelsSorted [tieChannelB, tieChannelA] ∧
    GatewayConfigResult [tieChannelA, tieChannelB]
      (getGatewayConfigSorted [tieChannelB, tieChannelA]) ∧
    GatewayConfigResult [tieChannelA, tieChannelB]
      (getGatewayConfigSorted [tieChannelA, tieChannelB]) ∧
    getGatewayConfigSorted [tieChannelB, tieChannelA] ≠
      getGatewayConfigSorted [tieChannelA, tieChannelB] :=
  ⟨by decide, by decide, List.Perm.swap tieChannelA tieChannelB [],
   by decide,
   ⟨[tieChannelB, tieChannelA], List.Perm.swap tieChannelA tieChannelB [],
    by decide, rfl⟩,
   ⟨[tieChannelA, tieChannelB], List.Perm.refl _, by decide, rfl⟩,
   by decide⟩

/-- C4 (amended): before assignment the plan is replaced by a permutation of
itself that is sorted ascending by the minimum radio center frequency
`frequency - channelBandwidth/2 + radioBandwidth/2`; such a permutation
always exists, but the order among equal keys is unspecified (`sort.Sort` is
not stable). -/
theorem c4_sorted_ascending (plan : List Channel) :
    (∀ c : Channel, minRadioCenterFreq c =
       c.Frequency - c.Bandwidth * 1000 / 2 +
         lookupRadioBandwidth (c.Bandwidth * 1000) / 2) ∧
    ∃ l, List.Perm l plan ∧ channelsSorted l ∧
      GatewayConfigResult plan (getGatewayConfigSorted l) := by
  refine ⟨fun c => rfl, List.insertionSort chanKeyLE plan,
    List.perm_insertionSort chanKeyLE plan, ?_, ?_⟩
  · exact List.sorted_insertionSort chanKeyLE plan
  · exact ⟨List.insertionSort chanKeyLE plan, List.perm_insertionSort chanKeyLE plan,
      List.sorted_insertionSort chanKeyLE plan, rfl⟩

/-- The radio search returns `some (s + i)` when position `i` is the first
fit, `s` being the index of the head. -/
theorem findRadioAux_spec_some (cmin cmax rbw : Int) :
    ∀ (radios : List radioConfig) (i s : Nat),
      i < radios.length →
      fitsRadio (radios.getD i zeroRadio) cmin cmax rbw = true →
      (∀ j, j < i → fitsRadio (radios.getD j zeroRadio) cmin cmax rbw = false) →
      findRadioAux s radios cmin cmax rbw = some (s + i)
  | [], i, _, hi, _, _ => absurd hi (by simp)
  | r :: rest, 0, s, _, hfit, _ => by
    rw [List.getD_cons_zero] at hfit
    simp [findRadioAux, hfit]
  | r :: rest, i + 1, s, hi, hfit, hmin => by
    have h0 : fitsRadio r cmin cmax rbw = false := by
      simpa using hmin 0 (Nat.succ_pos i)
    have hrec := findRadioAux_spec_some cmin cmax rbw rest i (s + 1)
      (by simpa using hi) (by simpa using hfit)
      (fun j hj => by simpa using hmin (j + 1) (Nat.succ_lt_succ hj))
    simp only [findRadioAux, h0, Bool.false_eq_true, if_false]
    rw [hrec]
    congr 1
    omega

/-- The radio search returns `none` when no radio fits. -/
theorem findRadioAux_spec_none (cmin cmax rbw : Int) :
    ∀ (radios : List radioConfig) (s : Nat),
      (∀ j, j < radios.length →
        fitsRadio (radios.getD j zeroRadio) cmin cmax rbw = false) →
      findRadioAux s radios cmin cmax rbw = none
  | [], _, _ => rfl
  | r :: rest, s, hmin => by
    have h0 : fitsRadio r cmin cmax rbw = false := by
      simpa using hmin 0 (Nat.succ_pos rest.length)
    have hrec := findRadioAux_spec_none cmin cmax rbw rest (s + 1)
      (fun j hj => by simpa using hmin (j + 1) (Nat.succ_lt_succ hj))
    simp [findRadioAux, h0, hrec]

/-- A successful radio search yields an index in range. -/
theorem findRadioAux_some_bounds (cmin cmax rbw : Int) :
    ∀ (radios : List radioConfig) (s k : Nat),
      findRadioAux s radios cmin cmax rbw = some k →
      s ≤ k ∧ k < s + radios.length
  | [], s, k, h => by simp [findRadioAux] at h
  | r :: rest, s, k, h => by
    rw [findRadioAux] at h
    split at h
    · obtain rfl : s = k := by simpa using h
      simp
    · have hb := findRadioAux_some_bounds cmin cmax rbw rest (s + 1) k h
      simp only [List.length_cons]
      omega

/-- C1: each channel is assigned to the first existing radio, in creation
order, whose window contains `[channelMin, channelMax]`; when no radio fits,
a new enabled radio centered at `channelMin + radioBandwidth/2` is appended
and the channel is assigned to it (index `radios.length`). -/
theorem c1_first_fit_or_new_radio (radios : List radioConfig) (c : Channel) :
    (∀ i, i < radios.length →
       fitsRadio (radios.getD i zeroRadio) (channelMinFreq c) (channelMaxFreq c)
         (channelRadioBandwidth c) = true →
       (∀ j, j < i →
          fitsRadio (radios.getD j zeroRadio) (channelMinFreq c) (channelMaxFreq c)
            (channelRadioBandwidth c) = false) →
       selectRadio radios (channelMinFreq c) (channelMaxFreq c)
         (channelRadioBandwidth c) = (radios, i)) ∧
    ((∀ i, i < radios.length →
        fitsRadio (radios.getD i zeroRadio) (channelMinFreq c) (channelMaxFreq c)
          (channelRadioBandwidth c) = false) →
       selectRadio radios (channelMinFreq c) (channelMaxFreq c)
         (channelRadioBandwidth c) =
         (radios ++ [⟨true, channelMinFreq c + channelRadioBandwidth c / 2⟩],
          radios.length)) := by
  constructor
  · intro i hi hfit hmin
    have h := findRadioAux_spec_some (channelMinFreq c) (channelMaxFreq c)
      (channelRadioBandwidth c) radios i 0 hi hfit hmin
    simp only [Nat.zero_add] at h
    simp [selectRadio, h]
  · intro hnone
    have h := findRadioAux_spec_none (channelMinFreq c) (channelMaxFreq c)
      (channelRadioBandwidth c) radios 0 hnone
    simp [selectRadio, h]

/-- Witness for C1 at two concrete inputs: a fitting radio is reused
(at index 0), and with no radio present a new enabled one is appended. -/
theorem c1_witness :
    selectRadio [⟨true, 868500000⟩]
      (channelMinFreq ⟨"LORA", 868300000, 125, 0, [7]⟩)
      (channelMaxFreq ⟨"LORA", 868300000, 125, 0, [7]⟩)
      (channelRadioBandwidth ⟨"LORA", 868300000, 125, 0, [7]⟩) =
      ([⟨true, 868500000⟩], 0) ∧
    selectRadio []
      (channelMinFreq ⟨"LORA", 868300000, 125, 0, [7]⟩)
      (channelMaxFreq ⟨"LORA", 868300000, 125, 0, [7]⟩)
      (channelRadioBandwidth ⟨"LORA", 868300000, 125, 0, [7]⟩) =
      ([⟨true, 868700000⟩], 0) := by
  constructor
  · exact (c1_first_fit_or_new_radio [⟨true, 868500000⟩]
      ⟨"LORA", 868300000, 125, 0, [7]⟩).1 0 (by decide) (by decide)
      (fun j hj => absurd hj (Nat.not_lt_zero j))
  · have h := (c1_first_fit_or_new_radio []
      ⟨"LORA", 868300000, 125, 0, [7]⟩).2
      (fun i hi => absurd hi (by simp))
    simpa using h

theorem getD_append_left_aux {α : Type} (l₁ l₂ : List α) (j : Nat) (d : α)
    (h : j < l₁.length) : (l₁ ++ l₂).getD j d = l₁.getD j d := by
  simp [List.getD_eq_getElem?_getD, List.getElem?_append_left h]

/-- The radio-selection step only appends enabled radios, keeps existing
entries in place, and returns an in-range index. -/
theorem selectRadio_step (radios : List radioConfig) (cmin cmax rbw : Int) :
    radios.length ≤ (selectRadio radios cmin cmax rbw).1.length ∧
    (selectRadio radios cmin cmax rbw).2 <
      (selectRadio radios cmin cmax rbw).1.length ∧
    (∀ j, j < radios.length →
       (selectRadio radios cmin cmax rbw).1.getD j zeroRadio =
         radios.getD j zeroRadio) ∧
    (∀ r ∈ (selectRadio radios cmin cmax rbw).1,
       r ∈ radios ∨ r.Enable = true) := by
  rcases h : findRadioAux 0 radios cmin cmax rbw with _ | i
  · simp only [selectRadio, h]
    refine ⟨by simp, by simp, ?_, ?_⟩
    · intro j hj
      exact getD_append_left_aux radios _ j zeroRadio hj
    · intro r hr
      rcases List.mem_append.mp hr with h1 | h1
      · exact Or.inl h1
      · simp at h1
        subst h1
        exact Or.inr rfl
  · have hb := findRadioAux_some_bounds cmin cmax rbw radios 0 i h
    simp only [selectRadio, h]
    refine ⟨Nat.le_refl _, by omega, by simp, fun r hr => Or.inl hr⟩

/-- The loop body preserves `RadioInv`. -/
theorem processChannel_inv {gc : gatewayConfiguration} {c : Channel}
    {gc' : gatewayConfiguration}
    (h : processChannel gc c = Except.ok gc') (hinv : RadioInv gc) :
    RadioInv gc' := by
  obtain ⟨hmulti, hstd, hfsk, hen⟩ := hinv
  obtain ⟨hlen, hlt, hkeep, hmem⟩ := selectRadio_step gc.Radios
    (c.Frequency - c.Bandwidth * 1000 / 2) (c.Frequency + c.Bandwidth * 1000 / 2)
    (lookupRadioBandwidth (c.Bandwidth * 1000))
  have hen' : ∀ r ∈ (selectRadio gc.Radios
      (c.Frequency - c.Bandwidth * 1000 / 2) (c.Frequency + c.Bandwidth * 1000 / 2)
      (lookupRadioBandwidth (c.Bandwidth * 1000))).1, r.Enable = true := by
    intro r hr
    rcases hmem r hr with h1 | h1
    · exact hen r h1
    · exact h1
  rw [processChannel] at h
  split at h
  · -- FSK modulation
    split at h
    · cases h
    · cases h
      refine ⟨?_, ?_, ?_, hen'⟩
      · intro s hs
        obtain ⟨h1, h2⟩ := hmulti s hs
        exact ⟨Nat.lt_of_lt_of_le h1 hlen, by rw [h2, hkeep s.Radio h1]⟩
      · intro he
        obtain ⟨h1, h2⟩ := hstd he
        exact ⟨Nat.lt_of_lt_of_le h1 hlen, by rw [h2, hkeep _ h1]⟩
      · intro _
        exact ⟨hlt, rfl⟩
  · split at h
    · -- LoRa single SF
      split at h
      · cases h
      · cases h
        refine ⟨?_, ?_, ?_, hen'⟩
        · intro s hs
          obtain ⟨h1, h2⟩ := hmulti s hs
          exact ⟨Nat.lt_of_lt_of_le h1 hlen, by rw [h2, hkeep s.Radio h1]⟩
        · intro _
          exact ⟨hlt, rfl⟩
        · intro he
          obtain ⟨h1, h2⟩ := hfsk he
          exact ⟨Nat.lt_of_lt_of_le h1 hlen, by rw [h2, hkeep _ h1]⟩
    · -- LoRa multi SF or invalid modulation
      split at h
      · cases h
        refine ⟨?_, ?_, ?_, hen'⟩
        · intro s hs
          rcases List.mem_append.mp hs with h1 | h1
          · obtain ⟨h2, h3⟩ := hmulti s h1
            exact ⟨Nat.lt_of_lt_of_le h2 hlen, by rw [h3, hkeep s.Radio h2]⟩
          · have h2 := List.mem_singleton.mp h1
            subst h2
            exact ⟨hlt, rfl⟩
        · intro he
          obtain ⟨h1, h2⟩ := hstd he
          exact ⟨Nat.lt_of_lt_of_le h1 hlen, by rw [h2, hkeep _ h1]⟩
        · intro he
          obtain ⟨h1, h2⟩ := hfsk he
          exact ⟨Nat.lt_of_lt_of_le h1 hlen, by rw [h2, hkeep _ h1]⟩
      · cases h

/-- The channel loop preserves `RadioInv`. -/
theorem assignChannels_inv :
    ∀ (l : List Channel) (gc gc' : gatewayConfiguration),
      RadioInv gc → assignChannels gc l = Except.ok gc' → RadioInv gc'
  | [], gc, gc', hinv, h => by
    rw [assignChannels] at h
    cases h
    exact hinv
  | c :: rest, gc, gc', hinv, h => by
    rw [assignChannels] at h
    split at h
    · exact assignChannels_inv rest _ gc' (processChannel_inv (by assumption) hinv) h
    · cases h

/-- The zero configuration satisfies `RadioInv`. -/
theorem radioInv_zero : RadioInv zeroGatewayConfiguration := by
  refine ⟨?_, ?_, ?_, ?_⟩ <;> simp [zeroGatewayConfiguration, zeroLoRaSTD, zeroFSK]

/-- C7: every slot of a successful assignment records as IF offset exactly
the channel frequency minus the center frequency of its radio, as a signed
integer. -/
theorem c7_if_offset_exact (plan : List Channel) (gc : gatewayConfiguration)
    (h : GatewayConfigResult plan (Except.ok gc)) :
    (∀ s ∈ gc.MultiSFChannels,
       s.IF = s.Freq - (gc.Radios.getD s.Radio zeroRadio).Freq) ∧
    (gc.LoRaSTDChannelConfig.Enable = true →
       gc.LoRaSTDChannelConfig.IF = gc.LoRaSTDChannelConfig.Freq -
         (gc.Radios.getD gc.LoRaSTDChannelConfig.Radio zeroRadio).Freq) ∧
    (gc.FSKChannelConfig.Enable = true →
       gc.FSKChannelConfig.IF = gc.FSKChannelConfig.Freq -
         (gc.Radios.getD gc.FSKChannelConfig.Radio zeroRadio).Freq) := by
  obtain ⟨l, _, _, heq⟩ := h
  obtain ⟨hmulti, hstd, hfsk, _⟩ :=
    assignChannels_inv l zeroGatewayConfiguration gc radioInv_zero heq
  exact ⟨fun s hs => (hmulti s hs).2, fun he => (hstd he).2, fun he => (hfsk he).2⟩

/-- Witness for C7 at the example plan. -/
theorem c7_witness :
    (∀ s ∈ exampleResultGC.MultiSFChannels,
       s.IF = s.Freq - (exampleResultGC.Radios.getD s.Radio zeroRadio).Freq) ∧
    (exampleResultGC.LoRaSTDChannelConfig.Enable = true →
       exampleResultGC.LoRaSTDChannelConfig.IF =
         exampleResultGC.LoRaSTDChannelConfig.Freq -
           (exampleResultGC.Radios.getD exampleResultGC.LoRaSTDChannelConfig.Radio
             zeroRadio).Freq) ∧
    (exampleResultGC.FSKChannelConfig.Enable = true →
       exampleResultGC.FSKChannelConfig.IF =
         exampleResultGC.FSKChannelConfig.Freq -
           (exampleResultGC.Radios.getD exampleResultGC.FSKChannelConfig.Radio
             zeroRadio).Freq) :=
  c7_if_offset_exact examplePlan exampleResultGC
    ⟨examplePlan, List.Perm.refl _, by decide, by decide⟩

/-- C10: in every successful assignment, each slot's radio index points into
the returned radio list and every returned radio is enabled. -/
theorem c10_slot_indices_valid (plan : List Channel) (gc : gatewayConfiguration)
    (h : GatewayConfigResult plan (Except.ok gc)) :
    (∀ s ∈ gc.MultiSFChannels, s.Radio < gc.Radios.length) ∧
    (gc.LoRaSTDChannelConfig.Enable = true →
       gc.LoRaSTDChannelConfig.Radio < gc.Radios.length) ∧
    (gc.FSKChannelConfig.Enable = true →
       gc.FSKChannelConfig.Radio < gc.Radios.length) ∧
    (∀ r ∈ gc.Radios, r.Enable = true) := by
  obtain ⟨l, _, _, heq⟩ := h
  obtain ⟨hmulti, hstd, hfsk, hen⟩ :=
    assignChannels_inv l zeroGatewayConfiguration gc radioInv_zero heq
  exact ⟨fun s hs => (hmulti s hs).1, fun he => (hstd he).1, fun he => (hfsk he).1, hen⟩

/-- Witness for C10 at the example plan. -/
theorem c10_witness :
    (∀ s ∈ exampleResultGC.MultiSFChannels, s.Radio < exampleResultGC.Radios.length) ∧
    (exampleResultGC.LoRaSTDChannelConfig.Enable = true →
       exampleResultGC.LoRaSTDChannelConfig.Radio < exampleResultGC.Radios.length) ∧
    (exampleResultGC.FSKChannelConfig.Enable = true →
       exampleResultGC.FSKChannelConfig.Radio < exampleResultGC.Radios.length) ∧
    (∀ r ∈ exampleResultGC.Radios, r.Enable = true) :=
  c10_slot_indices_valid examplePlan exampleResultGC
    ⟨examplePlan, List.Perm.refl _, by decide, by decide⟩

/-! ### Classification of the loop body by channel kind -/

theorem isFSKChannel_true {c : Channel} (h : c.Modulation = FSKModulation) :
    isFSKChannel c = true := by
  simp [isFSKChannel, h]

theorem isFSKChannel_false_of_lora {c : Channel} (h : c.Modulation = LoRaModulation) :
    isFSKChannel c = false := by
  simp only [isFSKChannel, beq_eq_false_iff_ne, ne_eq, h]
  decide

theorem isFSKChannel_false_of_invalid {c : Channel} (h : ¬ validModulation c) :
    isFSKChannel c = false := by
  simp only [isFSKChannel, beq_eq_false_iff_ne, ne_eq]
  exact fun he => h (Or.inr he)

theorem isSingleSFLoRa_true {c : Channel} (h1 : c.Modulation = LoRaModulation)
    (h2 : c.SpreadingFactors.length = 1) : isSingleSFLoRa c = true := by
  simp [isSingleSFLoRa, h1, h2]

theorem isSingleSFLoRa_false_of_fsk {c : Channel} (h : c.Modulation = FSKModulation) :
    isSingleSFLoRa c = false := by
  have hb : (c.Modulation == LoRaModulation) = false := by
    simp only [beq_eq_false_iff_ne, ne_eq, h]
    decide
  simp [isSingleSFLoRa, hb]

theorem isSingleSFLoRa_false_of_len {c : Channel}
    (h : ¬ c.SpreadingFactors.length = 1) : isSingleSFLoRa c = false := by
  have hb : (c.SpreadingFactors.length == 1) = false := by
    simpa using h
  simp [isSingleSFLoRa, hb]

theorem isSingleSFLoRa_false_of_invalid {c : Channel} (h : ¬ validModulation c) :
    isSingleSFLoRa c = false := by
  have hb : (c.Modulation == LoRaModulation) = false := by
    simp only [beq_eq_false_iff_ne, ne_eq]
    exact fun he => h (Or.inl he)
  simp [isSingleSFLoRa, hb]

theorem not_fsk_of_lora {c : Channel} (h : c.Modulation = LoRaModulation) :
    ¬ c.Modulation = FSKModulation := by
  rw [h]
  decide

/-- FSK channel against an already enabled FSK slot: duplicate error. -/
theorem processChannel_dup_fsk {gc : gatewayConfiguration} {c : Channel}
    (h1 : c.Modulation = FSKModulation) (h2 : gc.FSKChannelConfig.Enable = true) :
    processChannel gc c = Except.error "gateway: fsk channel already configured" := by
  simp only [processChannel]
  rw [if_pos h1, if_pos h2]

/-- FSK channel with a free FSK slot: success, slot becomes enabled, the
single-SF slot is untouched. -/
theorem processChannel_ok_fsk {gc : gatewayConfiguration} {c : Channel}
    (h1 : c.Modulation = FSKModulation) (h2 : gc.FSKChannelConfig.Enable = false) :
    ∃ gc', processChannel gc c = Except.ok gc' ∧
      gc'.FSKChannelConfig.Enable = true ∧
      gc'.LoRaSTDChannelConfig = gc.LoRaSTDChannelConfig := by
  simp only [processChannel]
  rw [if_pos h1, if_neg (show ¬ gc.FSKChannelConfig.Enable = true by simp [h2])]
  exact ⟨_, rfl, rfl, rfl⟩

/-- Single-SF LoRa channel against an already enabled std slot: duplicate
error. -/
theorem processChannel_dup_std {gc : gatewayConfiguration} {c : Channel}
    (h1 : c.Modulation = LoRaModulation) (h2 : c.SpreadingFactors.length = 1)
    (h3 : gc.LoRaSTDChannelConfig.Enable = true) :
    processChannel gc c = Except.error "gateway: lora std channel already configured" := by
  simp only [processChannel]
  rw [if_neg (not_fsk_of_lora h1), if_pos ⟨h1, h2⟩, if_pos h3]

/-- Single-SF LoRa channel with a free std slot: success, std slot becomes
enabled, the FSK slot is untouched. -/
theorem processChannel_ok_std {gc : gatewayConfiguration} {c : Channel}
    (h1 : c.Modulation = LoRaModulation) (h2 : c.SpreadingFactors.length = 1)
    (h3 : gc.LoRaSTDChannelConfig.Enable = false) :
    ∃ gc', processChannel gc c = Except.ok gc' ∧
      gc'.LoRaSTDChannelConfig.Enable = true ∧
      gc'.FSKChannelConfig = gc.FSKChannelConfig := by
  simp only [processChannel]
  rw [if_neg (not_fsk_of_lora h1), if_pos ⟨h1, h2⟩,
    if_neg (show ¬ gc.LoRaSTDChannelConfig.Enable = true by simp [h3])]
  exact ⟨_, rfl, rfl, rfl⟩

/-- Multi-SF LoRa channel: success, both single-cardinality slots untouched. -/
theorem processChannel_ok_multi {gc : gatewayConfiguration} {c : Channel}
    (h1 : c.Modulation = LoRaModulation) (h2 : ¬ c.SpreadingFactors.length = 1) :
    ∃ gc', processChannel gc c = Except.ok gc' ∧
      gc'.LoRaSTDChannelConfig = gc.LoRaSTDChannelConfig ∧
      gc'.FSKChannelConfig = gc.FSKChannelConfig := by
  simp only [processChannel]
  rw [if_neg (not_fsk_of_lora h1), if_neg (fun hc => h2 hc.2), if_pos h1]
  exact ⟨_, rfl, rfl, rfl⟩

/-- Unrecognized modulation: invalid-modulation error. -/
theorem processChannel_invalid {gc : gatewayConfiguration} {c : Channel}
    (h : ¬ validModulation c) :
    processChannel gc c =
      Except.error ("gateway: invalid modulation: " ++ c.Modulation) := by
  have h1 : ¬ c.Modulation = FSKModulation := fun he => h (Or.inr he)
  have h2 : ¬ c.Modulation = LoRaModulation := fun he => h (Or.inl he)
  simp only [processChannel]
  rw [if_neg h1, if_neg (fun hc => h2 hc.1), if_neg h2]

/-- With recognized modulations, at most one FSK and at most one single-SF
channel (counting an already occupied slot), the loop succeeds. -/
theorem assignChannels_ok :
    ∀ (l : List Channel) (gc : gatewayConfiguration),
      (∀ c ∈ l, validModulation c) →
      l.countP isFSKChannel +
        (if gc.FSKChannelConfig.Enable = true then 1 else 0) ≤ 1 →
      l.countP isSingleSFLoRa +
        (if gc.LoRaSTDChannelConfig.Enable = true then 1 else 0) ≤ 1 →
      ∃ gc', assignChannels gc l = Except.ok gc'
  | [], gc, _, _, _ => ⟨gc, rfl⟩
  | c :: rest, gc, hval, hf, hs => by
    have hvrest : ∀ x ∈ rest, validModulation x :=
      fun x hx => hval x (List.mem_cons_of_mem c hx)
    rcases hval c (List.mem_cons_self c rest) with hlora | hfsk
    · by_cases hlen : c.SpreadingFactors.length = 1
      · rw [List.countP_cons_of_pos _ _ (isSingleSFLoRa_true hlora hlen)] at hs
        rw [List.countP_cons_of_neg _ _
          (by simp [isFSKChannel_false_of_lora hlora])] at hf
        have hstdE : gc.LoRaSTDChannelConfig.Enable = false := by
          cases he : gc.LoRaSTDChannelConfig.Enable
          · rfl
          · exfalso
            rw [he, if_pos rfl] at hs
            omega
        obtain ⟨gc1, hstep, hE1, hE2⟩ := processChannel_ok_std hlora hlen hstdE
        have hf1 : rest.countP isFSKChannel +
            (if gc1.FSKChannelConfig.Enable = true then 1 else 0) ≤ 1 := by
          rw [hE2]; exact hf
        have hs1 : rest.countP isSingleSFLoRa +
            (if gc1.LoRaSTDChannelConfig.Enable = true then 1 else 0) ≤ 1 := by
          rw [hE1, if_pos rfl]
          rw [hstdE, if_neg (by simp)] at hs
          omega
        obtain ⟨gc', hok⟩ := assignChannels_ok rest gc1 hvrest hf1 hs1
        exact ⟨gc', by simp only [assignChannels, hstep]; exact hok⟩
      · rw [List.countP_cons_of_neg _ _
          (by simp [isSingleSFLoRa_false_of_len hlen])] at hs
        rw [List.countP_cons_of_neg _ _
          (by simp [isFSKChannel_false_of_lora hlora])] at hf
        obtain ⟨gc1, hstep, hE1, hE2⟩ := processChannel_ok_multi hlora hlen
        have hf1 : rest.countP isFSKChannel +
            (if gc1.FSKChannelConfig.Enable = true then 1 else 0) ≤ 1 := by
          rw [hE2]; exact hf
        have hs1 : rest.countP isSingleSFLoRa +
            (if gc1.LoRaSTDChannelConfig.Enable = true then 1 else 0) ≤ 1 := by
          rw [hE1]; exact hs
        obtain ⟨gc', hok⟩ := assignChannels_ok rest gc1 hvrest hf1 hs1
        exact ⟨gc', by simp only [assignChannels, hstep]; exact hok⟩
    · rw [List.countP_cons_of_pos _ _ (isFSKChannel_true hfsk)] at hf
      rw [List.countP_cons_of_neg _ _
        (by simp [isSingleSFLoRa_false_of_fsk hfsk])] at hs
      have hfskE : gc.FSKChannelConfig.Enable = false := by
        cases he : gc.FSKChannelConfig.Enable
        · rfl
        · exfalso
          rw [he, if_pos rfl] at hf
          omega
      obtain ⟨gc1, hstep, hE1, hE2⟩ := processChannel_ok_fsk hfsk hfskE
      have hf1 : rest.countP isFSKChannel +
          (if gc1.FSKChannelConfig.Enable = true then 1 else 0) ≤ 1 := by
        rw [hE1, if_pos rfl]
        rw [hfskE, if_neg (by simp)] at hf
        omega
      have hs1 : rest.countP isSingleSFLoRa +
          (if gc1.LoRaSTDChannelConfig.Enable = true then 1 else 0) ≤ 1 := by
        rw [hE2]; exact hs
      obtain ⟨gc', hok⟩ := assignChannels_ok rest gc1 hvrest hf1 hs1
      exact ⟨gc', by simp only [assignChannels, hstep]; exact hok⟩

/-- With recognized modulations, two channels aimed at the FSK slot or two
aimed at the single-SF slot (counting an already occupied slot) force a
duplicate-slot error. -/
theorem assignChannels_dup :
    ∀ (l : List Channel) (gc : gatewayConfiguration),
      (∀ c ∈ l, validModulation c) →
      (2 ≤ l.countP isFSKChannel +
         (if gc.FSKChannelConfig.Enable = true then 1 else 0) ∨
       2 ≤ l.countP isSingleSFLoRa +
         (if gc.LoRaSTDChannelConfig.Enable = true then 1 else 0)) →
      DuplicateSlotRes (assignChannels gc l)
  | [], gc, _, hge => by
    exfalso
    rcases hge with h | h <;>
      (rw [List.countP_nil] at h; split at h <;> omega)
  | c :: rest, gc, hval, hge => by
    have hvrest : ∀ x ∈ rest, validModulation x :=
      fun x hx => hval x (List.mem_cons_of_mem c hx)
    rcases hval c (List.mem_cons_self c rest) with hlora | hfsk
    · by_cases hlen : c.SpreadingFactors.length = 1
      · cases he : gc.LoRaSTDChannelConfig.Enable
        · obtain ⟨gc1, hstep, hE1, hE2⟩ := processChannel_ok_std hlora hlen he
          have hge1 : 2 ≤ rest.countP isFSKChannel +
              (if gc1.FSKChannelConfig.Enable = true then 1 else 0) ∨
              2 ≤ rest.countP isSingleSFLoRa +
              (if gc1.LoRaSTDChannelConfig.Enable = true then 1 else 0) := by
            rcases hge with h | h
            · left
              rw [List.countP_cons_of_neg _ _
                (by simp [isFSKChannel_false_of_lora hlora])] at h
              rw [hE2]
              exact h
            · right
              rw [List.countP_cons_of_pos _ _ (isSingleSFLoRa_true hlora hlen),
                he, if_neg (by simp)] at h
              rw [hE1, if_pos rfl]
              omega
          have hres := assignChannels_dup rest gc1 hvrest hge1
          simp only [assignChannels, hstep]
          exact hres
        · exact Or.inr (by simp only [assignChannels,
            processChannel_dup_std hlora hlen he])
      · obtain ⟨gc1, hstep, hE1, hE2⟩ := processChannel_ok_multi hlora hlen
        have hge1 : 2 ≤ rest.countP isFSKChannel +
            (if gc1.FSKChannelConfig.Enable = true then 1 else 0) ∨
            2 ≤ rest.countP isSingleSFLoRa +
            (if gc1.LoRaSTDChannelConfig.Enable = true then 1 else 0) := by
          rcases hge with h | h
          · left
            rw [List.countP_cons_of_neg _ _
              (by simp [isFSKChannel_false_of_lora hlora])] at h
            rw [hE2]
            exact h
          · right
            rw [List.countP_cons_of_neg _ _
              (by simp [isSingleSFLoRa_false_of_len hlen])] at h
            rw [hE1]
            exact h
        have hres := assignChannels_dup rest gc1 hvrest hge1
        simp only [assignChannels, hstep]
        exact hres
    · cases he : gc.FSKChannelConfig.Enable
      · obtain ⟨gc1, hstep, hE1, hE2⟩ := processChannel_ok_fsk hfsk he
        have hge1 : 2 ≤ rest.countP isFSKChannel +
            (if gc1.FSKChannelConfig.Enable = true then 1 else 0) ∨
            2 ≤ rest.countP isSingleSFLoRa +
            (if gc1.LoRaSTDChannelConfig.Enable = true then 1 else 0) := by
          rcases hge with h | h
          · left
            rw [List.countP_cons_of_pos _ _ (isFSKChannel_true hfsk),
              he, if_neg (by simp)] at h
            rw [hE1, if_pos rfl]
            omega
          · right
            rw [List.countP_cons_of_neg _ _
              (by simp [isSingleSFLoRa_false_of_fsk hfsk])] at h
            rw [hE2]
            exact h
        have hres := assignChannels_dup rest gc1 hvrest hge1
        simp only [assignChannels, hstep]
        exact hres
      · exact Or.inl (by simp only [assignChannels,
          processChannel_dup_fsk hfsk he])

/-- With at most one channel per single-cardinality slot, an unrecognized
modulation in the plan forces the invalid-modulation error of the first such
channel. -/
theorem assignChannels_invalid :
    ∀ (l : List Channel) (gc : gatewayConfiguration),
      l.countP isFSKChannel +
        (if gc.FSKChannelConfig.Enable = true then 1 else 0) ≤ 1 →
      l.countP isSingleSFLoRa +
        (if gc.LoRaSTDChannelConfig.Enable = true then 1 else 0) ≤ 1 →
      (∃ c ∈ l, ¬ validModulation c) →
      ∃ c ∈ l, ¬ validModulation c ∧
        assignChannels gc l =
          Except.error ("gateway: invalid modulation: " ++ c.Modulation)
  | [], _, _, _, hex => absurd hex (by simp)
  | c :: rest, gc, hf, hs, hex => by
    by_cases hvc : validModulation c
    · have hrest : ∃ x ∈ rest, ¬ validModulation x := by
        rcases hex with ⟨x, hx, hbad⟩
        rcases List.mem_cons.mp hx with rfl | hmem
        · exact absurd hvc hbad
        · exact ⟨x, hmem, hbad⟩
      rcases hvc with hlora | hfsk
      · by_cases hlen : c.SpreadingFactors.length = 1
        · rw [List.countP_cons_of_pos _ _ (isSingleSFLoRa_true hlora hlen)] at hs
          rw [List.countP_cons_of_neg _ _
            (by simp [isFSKChannel_false_of_lora hlora])] at hf
          have hstdE : gc.LoRaSTDChannelConfig.Enable = false := by
            cases he : gc.LoRaSTDChannelConfig.Enable
            · rfl
            · exfalso
              rw [he, if_pos rfl] at hs
              omega
          obtain ⟨gc1, hstep, hE1, hE2⟩ := processChannel_ok_std hlora hlen hstdE
          have hf1 : rest.countP isFSKChannel +
              (if gc1.FSKChannelConfig.Enable = true then 1 else 0) ≤ 1 := by
            rw [hE2]; exact hf
          have hs1 : rest.countP isSingleSFLoRa +
              (if gc1.LoRaSTDChannelConfig.Enable = true then 1 else 0) ≤ 1 := by
            rw [hE1, if_pos rfl]
            rw [hstdE, if_neg (by simp)] at hs
            omega
          obtain ⟨x, hxmem, hxbad, hxres⟩ :=
            assignChannels_invalid rest gc1 hf1 hs1 hrest
          exact ⟨x, List.mem_cons_of_mem c hxmem, hxbad,
            by simp only [assignChannels, hstep]; exact hxres⟩
        · rw [List.countP_cons_of_neg _ _
            (by simp [isSingleSFLoRa_false_of_len hlen])] at hs
          rw [List.countP_cons_of_neg _ _
            (by simp [isFSKChannel_false_of_lora hlora])] at hf
          obtain ⟨gc1, hstep, hE1, hE2⟩ := processChannel_ok_multi hlora hlen
          have hf1 : rest.countP isFSKChannel +
              (if gc1.FSKChannelConfig.Enable = true then 1 else 0) ≤ 1 := by
            rw [hE2]; exact hf
          have hs1 : rest.countP isSingleSFLoRa +
              (if gc1.LoRaSTDChannelConfig.Enable = true then 1 else 0) ≤ 1 := by
            rw [hE1]; exact hs
          obtain ⟨x, hxmem, hxbad, hxres⟩ :=
            assignChannels_invalid rest gc1 hf1 hs1 hrest
          exact ⟨x, List.mem_cons_of_mem c hxmem, hxbad,
            by simp only [assignChannels, hstep]; exact hxres⟩
      · rw [List.countP_cons_of_pos _ _ (isFSKChannel_true hfsk)] at hf
        rw [List.countP_cons_of_neg _ _
          (by simp [isSingleSFLoRa_false_of_fsk hfsk])] at hs
        have hfskE : gc.FSKChannelConfig.Enable = false := by
          cases he : gc.FSKChannelConfig.Enable
          · rfl
          · exfalso
            rw [he, if_pos rfl] at hf
            omega
        obtain ⟨gc1, hstep, hE1, hE2⟩ := processChannel_ok_fsk hfsk hfskE
        have hf1 : rest.countP isFSKChannel +
            (if gc1.FSKChannelConfig.Enable = true then 1 else 0) ≤ 1 := by
          rw [hE1, if_pos rfl]
          rw [hfskE, if_neg (by simp)] at hf
          omega
        have hs1 : rest.countP isSingleSFLoRa +
            (if gc1.LoRaSTDChannelConfig.Enable = true then 1 else 0) ≤ 1 := by
          rw [hE2]; exact hs
        obtain ⟨x, hxmem, hxbad, hxres⟩ :=
          assignChannels_invalid rest gc1 hf1 hs1 hrest
        exact ⟨x, List.mem_cons_of_mem c hxmem, hxbad,
          by simp only [assignChannels, hstep]; exact hxres⟩
    · refine ⟨c, List.mem_cons_self c rest, hvc, ?_⟩
      simp only [assignChannels, processChannel_invalid hvc]

/-- C5 counterexample: the plan `[badModChannel, dupFSK1, dupFSK2]` contains
two FSK channels, yet the assignment fails with the invalid-modulation error
of `badModChannel` (whose sort key is lowest), not with a duplicate-slot
error. -/
theorem c5_counterexample :
    2 ≤ ([badModChannel, dupFSK1, dupFSK2] : List Channel).countP isFSKChannel ∧
    GatewayConfigResult [badModChannel, dupFSK1, dupFSK2]
      (Except.error "gateway: invalid modulation: GFSK") ∧
    (∀ res, GatewayConfigResult [badModChannel, dupFSK1, dupFSK2] res →
       res = Except.error "gateway: invalid modulation: GFSK") ∧
    ¬ DuplicateSlotRes (Except.error "gateway: invalid modulation: GFSK") :=
  ⟨by decide,
   ⟨[badModChannel, dupFSK1, dupFSK2], List.Perm.refl _, by decide, by decide⟩,
   gatewayConfigResult_forall (by decide), by decide⟩

/-- C5 (amended): for plans whose modulations are all recognized, two FSK or
two single-SF channels force a duplicate-slot failure, and at most one of
each guarantees success. -/
theorem c5_duplicate_slot (plan : List Channel)
    (res : Except String gatewayConfiguration)
    (hval : ∀ c ∈ plan, validModulation c)
    (hres : GatewayConfigResult plan res) :
    ((2 ≤ plan.countP isFSKChannel ∨ 2 ≤ plan.countP isSingleSFLoRa) →
       DuplicateSlotRes res) ∧
    (plan.countP isFSKChannel ≤ 1 → plan.countP isSingleSFLoRa ≤ 1 →
       ∃ gc, res = Except.ok gc) := by
  obtain ⟨l, hperm, hsort, heq⟩ := hres
  have heq' : assignChannels zeroGatewayConfiguration l = res := heq
  have hvl : ∀ c ∈ l, validModulation c := fun c hc => hval c (hperm.mem_iff.mp hc)
  have hcf := hperm.countP_eq isFSKChannel
  have hcs := hperm.countP_eq isSingleSFLoRa
  have hz1 : (if zeroGatewayConfiguration.FSKChannelConfig.Enable = true
      then 1 else 0) = 0 := rfl
  have hz2 : (if zeroGatewayConfiguration.LoRaSTDChannelConfig.Enable = true
      then 1 else 0) = 0 := rfl
  constructor
  · intro hge
    have hd := assignChannels_dup l zeroGatewayConfiguration hvl ?_
    · rw [heq'] at hd
      exact hd
    · rcases hge with h | h
      · left
        rw [hz1, Nat.add_zero, hcf]
        exact h
      · right
        rw [hz2, Nat.add_zero, hcs]
        exact h
  · intro h1 h2
    obtain ⟨gc, hok⟩ := assignChannels_ok l zeroGatewayConfiguration hvl
      (by rw [hz1, Nat.add_zero, hcf]; exact h1)
      (by rw [hz2, Nat.add_zero, hcs]; exact h2)
    rw [heq'] at hok
    exact ⟨gc, hok⟩

/-- Witness for C5: two FSK channels fail with a duplicate-slot error, and
the example plan (one FSK, one single-SF, two multi-SF) succeeds. -/
theorem c5_witness :
    DuplicateSlotRes (getGatewayConfigSorted [dupFSK1, dupFSK2]) ∧
    ∃ gc, getGatewayConfigSorted examplePlan = Except.ok gc :=
  ⟨(c5_duplicate_slot [dupFSK1, dupFSK2]
      (getGatewayConfigSorted [dupFSK1, dupFSK2]) (by decide)
      ⟨[dupFSK1, dupFSK2], List.Perm.refl _, by decide, rfl⟩).1
      (Or.inl (by decide)),
   (c5_duplicate_slot examplePlan (getGatewayConfigSorted examplePlan) (by decide)
      ⟨examplePlan, List.Perm.refl _, by decide, rfl⟩).2 (by decide) (by decide)⟩

/-- C6 counterexample: a LoRa channel with zero spreading factors does not
make the assignment fail; it is accepted and recorded as a multi-SF slot. -/
theorem c6_counterexample :
    zeroSFChannel.Modulation = LoRaModulation ∧
    zeroSFChannel.SpreadingFactors.length = 0 ∧
    GatewayConfigResult [zeroSFChannel]
      (Except.ok ⟨[⟨true, 868500000⟩], [⟨true, 0, -400000, 868100000⟩],
        zeroLoRaSTD, zeroFSK⟩) ∧
    (∀ res, GatewayConfigResult [zeroSFChannel] res →
       res = Except.ok ⟨[⟨true, 868500000⟩], [⟨true, 0, -400000, 868100000⟩],
         zeroLoRaSTD, zeroFSK⟩) :=
  ⟨rfl, rfl, ⟨[zeroSFChannel], List.Perm.refl _, by decide, by decide⟩,
   gatewayConfigResult_forall (by decide)⟩

/-- C6 (amended): with at most one FSK and at most one single-SF channel,
the assignment fails with an invalid-modulation error exactly when the plan
contains a channel whose modulation is outside LoRa and FSK, and every
failure names such a channel's modulation. -/
theorem c6_invalid_modulation (plan : List Channel)
    (res : Except String gatewayConfiguration)
    (hf : plan.countP isFSKChannel ≤ 1)
    (hs : plan.countP isSingleSFLoRa ≤ 1)
    (hres : GatewayConfigResult plan res) :
    ((∃ c ∈ plan, ¬ validModulation c) →
       ∃ c ∈ plan, ¬ validModulation c ∧
         res = Except.error ("gateway: invalid modulation: " ++ c.Modulation)) ∧
    (∀ e, res = Except.error e →
       ∃ c ∈ plan, ¬ validModulation c ∧
         e = "gateway: invalid modulation: " ++ c.Modulation) := by
  obtain ⟨l, hperm, hsort, heq⟩ := hres
  have heq' : assignChannels zeroGatewayConfiguration l = res := heq
  have hcf := hperm.countP_eq isFSKChannel
  have hcs := hperm.countP_eq isSingleSFLoRa
  have hz1 : (if zeroGatewayConfiguration.FSKChannelConfig.Enable = true
      then 1 else 0) = 0 := rfl
  have hz2 : (if zeroGatewayConfiguration.LoRaSTDChannelConfig.Enable = true
      then 1 else 0) = 0 := rfl
  have hf0 : l.countP isFSKChannel +
      (if zeroGatewayConfiguration.FSKChannelConfig.Enable = true
        then 1 else 0) ≤ 1 := by
    rw [hz1, Nat.add_zero, hcf]; exact hf
  have hs0 : l.countP isSingleSFLoRa +
      (if zeroGatewayConfiguration.LoRaSTDChannelConfig.Enable = true
        then 1 else 0) ≤ 1 := by
    rw [hz2, Nat.add_zero, hcs]; exact hs
  constructor
  · intro hex
    have hexl : ∃ c ∈ l, ¬ validModulation c := by
      rcases hex with ⟨c, hc, hbad⟩
      exact ⟨c, hperm.mem_iff.mpr hc, hbad⟩
    obtain ⟨c, hcmem, hbad, hres2⟩ :=
      assignChannels_invalid l zeroGatewayConfiguration hf0 hs0 hexl
    rw [heq'] at hres2
    exact ⟨c, hperm.mem_iff.mp hcmem, hbad, hres2⟩
  · intro e he
    by_cases hex : ∃ c ∈ l, ¬ validModulation c
    · obtain ⟨c, hcmem, hbad, hres2⟩ :=
        assignChannels_invalid l zeroGatewayConfiguration hf0 hs0 hex
      rw [heq', he] at hres2
      exact ⟨c, hperm.mem_iff.mp hcmem, hbad, Except.error.inj hres2⟩
    · have hvl : ∀ c ∈ l, validModulation c := by
        intro c hc
        by_contra hb
        exact hex ⟨c, hc, hb⟩
      obtain ⟨gc, hok⟩ := assignChannels_ok l zeroGatewayConfiguration hvl hf0 hs0
      rw [heq', he] at hok
      cases hok

/-- Witness for C6: a plan with a single GFSK channel fails with the
invalid-modulation error naming that channel's modulation. -/
theorem c6_witness :
    ∃ c ∈ ([badModChannel] : List Channel), ¬ validModulation c ∧
      getGatewayConfigSorted [badModChannel] =
        Except.error ("gateway: invalid modulation: " ++ c.Modulation) :=
  (c6_invalid_modulation [badModChannel] (getGatewayConfigSorted [badModChannel])
    (by decide) (by decide)
    ⟨[badModChannel], List.Perm.refl _, by decide, rfl⟩).1 (by decide)

/-! ### Map and key lemmas for the merge -/

theorem mapGet_mapSet_self :
    ∀ (m : ConfMap) (k : String) (v : Node), mapGet (mapSet m k v) k = some v
  | [], k, v => by simp [mapSet, mapGet]
  | (k₀, v₀) :: rest, k, v => by
    by_cases h : k₀ = k
    · simp [mapSet, h, mapGet]
    · simp [mapSet, h, mapGet, mapGet_mapSet_self rest k v]

theorem mapGet_mapSet_ne :
    ∀ (m : ConfMap) (k k' : String) (v : Node), k' ≠ k →
      mapGet (mapSet m k v) k' = mapGet m k'
  | [], k, k', v, h => by simp [mapSet, mapGet, Ne.symm h]
  | (k₀, v₀) :: rest, k, k', v, h => by
    by_cases h0 : k₀ = k
    · subst h0
      simp [mapSet, mapGet, Ne.symm h]
    · simp [mapSet, h0, mapGet, mapGet_mapSet_ne rest k k' v h]

theorem ne_of_head_probe {a b : String}
    (h : a.data.head? ≠ b.data.head?) : a ≠ b :=
  fun e => h (by rw [e])

theorem ne_of_drop5_probe {a b : String}
    (h : (a.data.drop 5).head? ≠ (b.data.drop 5).head?) : a ≠ b :=
  fun e => h (by rw [e])

theorem radioKey_ne_multiSFKey (i j : Nat) : radioKey i ≠ multiSFKey j :=
  ne_of_head_probe (by
    rw [show (radioKey i).data.head? = some 'r' from rfl,
        show (multiSFKey j).data.head? = some 'c' from rfl]
    decide)

theorem radioKey_ne_std (i : Nat) : radioKey i ≠ "chan_Lora_std" :=
  ne_of_head_probe (by
    rw [show (radioKey i).data.head? = some 'r' from rfl]
    decide)

theorem radioKey_ne_fsk (i : Nat) : radioKey i ≠ "chan_FSK" :=
  ne_of_head_probe (by
    rw [show (radioKey i).data.head? = some 'r' from rfl]
    decide)

theorem multiSFKey_ne_std (j : Nat) : multiSFKey j ≠ "chan_Lora_std" :=
  ne_of_drop5_probe (by
    rw [show ((multiSFKey j).data.drop 5).head? = some 'm' from rfl]
    decide)

theorem multiSFKey_ne_fsk (j : Nat) : multiSFKey j ≠ "chan_FSK" :=
  ne_of_drop5_probe (by
    rw [show ((multiSFKey j).data.drop 5).head? = some 'm' from rfl]
    decide)

theorem setRadioFields_siblings (m : ConfMap) (r : radioConfig) :
    ∀ f, f ∉ (["enable", "freq"] : List String) →
      mapGet (setRadioFields m r) f = mapGet m f := by
  intro f hf
  simp only [List.mem_cons, List.mem_singleton, not_or] at hf
  rw [setRadioFields, mapGet_mapSet_ne _ _ _ _ hf.2.1, mapGet_mapSet_ne _ _ _ _ hf.1]

theorem setMultiSFFields_siblings (m : ConfMap) (c : multiSFChannelConfig) :
    ∀ f, f ∉ (["enable", "radio", "if"] : List String) →
      mapGet (setMultiSFFields m c) f = mapGet m f := by
  intro f hf
  simp only [List.mem_cons, List.mem_singleton, not_or] at hf
  rw [setMultiSFFields, mapGet_mapSet_ne _ _ _ _ hf.2.2.1,
    mapGet_mapSet_ne _ _ _ _ hf.2.1, mapGet_mapSet_ne _ _ _ _ hf.1]

theorem setStdFields_siblings (m : ConfMap) (c : loRaSTDChannelConfig) :
    ∀ f, f ∉ (["enable", "radio", "if", "bandwidth", "spread_factor"] : List String) →
      mapGet (setStdFields m c) f = mapGet m f := by
  intro f hf
  simp only [List.mem_cons, List.mem_singleton, not_or] at hf
  rw [setStdFields, mapGet_mapSet_ne _ _ _ _ hf.2.2.2.2.1,
    mapGet_mapSet_ne _ _ _ _ hf.2.2.2.1, mapGet_mapSet_ne _ _ _ _ hf.2.2.1,
    mapGet_mapSet_ne _ _ _ _ hf.2.1, mapGet_mapSet_ne _ _ _ _ hf.1]

theorem setFSKFields_siblings (m : ConfMap) (c : fskChannelConfig) :
    ∀ f, f ∉ (["enable", "radio", "if", "bandwidth", "datarate"] : List String) →
      mapGet (setFSKFields m c) f = mapGet m f := by
  intro f hf
  simp only [List.mem_cons, List.mem_singleton, not_or] at hf
  rw [setFSKFields, mapGet_mapSet_ne _ _ _ _ hf.2.2.2.2.1,
    mapGet_mapSet_ne _ _ _ _ hf.2.2.2.1, mapGet_mapSet_ne _ _ _ _ hf.2.2.1,
    mapGet_mapSet_ne _ _ _ _ hf.2.1, mapGet_mapSet_ne _ _ _ _ hf.1]

theorem SiblingsPreserved_of_eq {a b : ConfMap} {k : String} {fields : List String}
    (h : mapGet b k = mapGet a k) : SiblingsPreserved a b k fields :=
  Or.inl h

theorem SiblingsPreserved_trans {a b c : ConfMap} {k : String} {fields : List String}
    (h1 : SiblingsPreserved a b k fields) (h2 : SiblingsPreserved b c k fields) :
    SiblingsPreserved a c k fields := by
  rcases h1 with h1 | ⟨m, m', hm, hm', hfm⟩
  · rcases h2 with h2 | ⟨n, n', hn, hn', hfn⟩
    · exact Or.inl (h2.trans h1)
    · rw [h1] at hn
      exact Or.inr ⟨n, n', hn, hn', hfn⟩
  · rcases h2 with h2 | ⟨n, n', hn, hn', hfn⟩
    · exact Or.inr ⟨m, m', hm, h2.trans hm', hfm⟩
    · rw [hm'] at hn
      have hmn : m' = n := Node.obj.inj (Option.some.inj hn)
      refine Or.inr ⟨m, n', hm, hn', fun f hff => ?_⟩
      rw [hfn f hff, ← hmn, hfm f hff]

/-! ### Frame properties of the four merge stages -/

theorem mergeRadiosAux_frame :
    ∀ (rs : List radioConfig) (sx : ConfMap) (idx : Nat) (k : String),
      (∀ p, p < rs.length → k ≠ radioKey (idx + p)) →
      mapGet (mergeRadiosAux sx idx rs).1 k = mapGet sx k
  | [], _, _, _, _ => rfl
  | r :: rest, sx, idx, k, hk => by
    have hk0 : k ≠ radioKey idx := by simpa using hk 0 (Nat.succ_pos _)
    have hkr : ∀ p, p < rest.length → k ≠ radioKey (idx + 1 + p) := by
      intro p hp
      have h2 := hk (p + 1) (Nat.succ_lt_succ hp)
      rw [show idx + 1 + p = idx + (p + 1) from by omega]
      exact h2
    rcases hm : mapGet sx (radioKey idx) with _ | v
    · simp [mergeRadiosAux, hm]
    · cases v with
      | obj m =>
        simp only [mergeRadiosAux, hm]
        rw [mergeRadiosAux_frame rest _ (idx + 1) k hkr]
        exact mapGet_mapSet_ne _ _ _ _ hk0
      | b x => simp [mergeRadiosAux, hm]
      | i x => simp [mergeRadiosAux, hm]
      | s x => simp [mergeRadiosAux, hm]

theorem mergeRadiosAux_siblings :
    ∀ (rs : List radioConfig) (sx : ConfMap) (idx : Nat) (k : String),
      SiblingsPreserved sx (mergeRadiosAux sx idx rs).1 k ["enable", "freq"]
  | [], _, _, _ => Or.inl rfl
  | r :: rest, sx, idx, k => by
    rcases hm : mapGet sx (radioKey idx) with _ | v
    · exact Or.inl (by simp [mergeRadiosAux, hm])
    · cases v with
      | obj m =>
        have hstep : SiblingsPreserved sx
            (mapSet sx (radioKey idx) (Node.obj (setRadioFields m r))) k
            ["enable", "freq"] := by
          by_cases hk : k = radioKey idx
          · subst hk
            exact Or.inr ⟨m, setRadioFields m r, hm, mapGet_mapSet_self _ _ _,
              setRadioFields_siblings m r⟩
          · exact Or.inl (mapGet_mapSet_ne _ _ _ _ hk)
        have hrec := mergeRadiosAux_siblings rest
          (mapSet sx (radioKey idx) (Node.obj (setRadioFields m r))) (idx + 1) k
        have heq : (mergeRadiosAux sx idx (r :: rest)).1 =
            (mergeRadiosAux
              (mapSet sx (radioKey idx) (Node.obj (setRadioFields m r)))
              (idx + 1) rest).1 := by
          simp [mergeRadiosAux, hm]
        rw [heq]
        exact SiblingsPreserved_trans hstep hrec
      | b x => exact Or.inl (by simp [mergeRadiosAux, hm])
      | i x => exact Or.inl (by simp [mergeRadiosAux, hm])
      | s x => exact Or.inl (by simp [mergeRadiosAux, hm])

theorem mergeMultiSFAux_frame :
    ∀ (cs : List multiSFChannelConfig) (sx : ConfMap) (idx : Nat) (k : String),
      (∀ p, p < cs.length → k ≠ multiSFKey (idx + p)) →
      mapGet (mergeMultiSFAux sx idx cs).1 k = mapGet sx k
  | [], _, _, _, _ => rfl
  | c :: rest, sx, idx, k, hk => by
    have hk0 : k ≠ multiSFKey idx := by simpa using hk 0 (Nat.succ_pos _)
    have hkr : ∀ p, p < rest.length → k ≠ multiSFKey (idx + 1 + p) := by
      intro p hp
      have h2 := hk (p + 1) (Nat.succ_lt_succ hp)
      rw [show idx + 1 + p = idx + (p + 1) from by omega]
      exact h2
    rcases hm : mapGet sx (multiSFKey idx) with _ | v
    · simp [mergeMultiSFAux, hm]
    · cases v with
      | obj m =>
        simp only [mergeMultiSFAux, hm]
        rw [mergeMultiSFAux_frame rest _ (idx + 1) k hkr]
        exact mapGet_mapSet_ne _ _ _ _ hk0
      | b x => simp [mergeMultiSFAux, hm]
      | i x => simp [mergeMultiSFAux, hm]
      | s x => simp [mergeMultiSFAux, hm]

theorem mergeMultiSFAux_siblings :
    ∀ (cs : List multiSFChannelConfig) (sx : ConfMap) (idx : Nat) (k : String),
      SiblingsPreserved sx (mergeMultiSFAux sx idx cs).1 k ["enable", "radio", "if"]
  | [], _, _, _ => Or.inl rfl
  | c :: rest, sx, idx, k => by
    rcases hm : mapGet sx (multiSFKey idx) with _ | v
    · exact Or.inl (by simp [mergeMultiSFAux, hm])
    · cases v with
      | obj m =>
        have hstep : SiblingsPreserved sx
            (mapSet sx (multiSFKey idx) (Node.obj (setMultiSFFields m c))) k
            ["enable", "radio", "if"] := by
          by_cases hk : k = multiSFKey idx
          · subst hk
            exact Or.inr ⟨m, setMultiSFFields m c, hm, mapGet_mapSet_self _ _ _,
              setMultiSFFields_siblings m c⟩
          · exact Or.inl (mapGet_mapSet_ne _ _ _ _ hk)
        have hrec := mergeMultiSFAux_siblings rest
          (mapSet sx (multiSFKey idx) (Node.obj (setMultiSFFields m c))) (idx + 1) k
        have heq : (mergeMultiSFAux sx idx (c :: rest)).1 =
            (mergeMultiSFAux
              (mapSet sx (multiSFKey idx) (Node.obj (setMultiSFFields m c)))
              (idx + 1) rest).1 := by
          simp [mergeMultiSFAux, hm]
        rw [heq]
        exact SiblingsPreserved_trans hstep hrec
      | b x => exact Or.inl (by simp [mergeMultiSFAux, hm])
      | i x => exact Or.inl (by simp [mergeMultiSFAux, hm])
      | s x => exact Or.inl (by simp [mergeMultiSFAux, hm])

theorem mergeStd_frame (sx : ConfMap) (c : loRaSTDChannelConfig) :
    ∀ k, k ≠ "chan_Lora_std" → mapGet (mergeStd sx c).1 k = mapGet sx k := by
  intro k hk
  rcases hm : mapGet sx "chan_Lora_std" with _ | v
  · simp [mergeStd, hm]
  · cases v with
    | obj m => simp [mergeStd, hm, mapGet_mapSet_ne _ _ _ _ hk]
    | b x => simp [mergeStd, hm]
    | i x => simp [mergeStd, hm]
    | s x => simp [mergeStd, hm]

theorem mergeStd_siblings (sx : ConfMap) (c : loRaSTDChannelConfig) (k : String) :
    SiblingsPreserved sx (mergeStd sx c).1 k
      ["enable", "radio", "if", "bandwidth", "spread_factor"] := by
  by_cases hk : k = "chan_Lora_std"
  · subst hk
    rcases hm : mapGet sx "chan_Lora_std" with _ | v
    · exact Or.inl (by simp [mergeStd, hm])
    · cases v with
      | obj m =>
        refine Or.inr ⟨m, setStdFields m c, hm, ?_, setStdFields_siblings m c⟩
        simp [mergeStd, hm, mapGet_mapSet_self]
      | b x => exact Or.inl (by simp [mergeStd, hm])
      | i x => exact Or.inl (by simp [mergeStd, hm])
      | s x => exact Or.inl (by simp [mergeStd, hm])
  · exact Or.inl (mergeStd_frame sx c k hk)

theorem mergeFSK_frame (sx : ConfMap) (c : fskChannelConfig) :
    ∀ k, k ≠ "chan_FSK" → mapGet (mergeFSK sx c).1 k = mapGet sx k := by
  intro k hk
  rcases hm : mapGet sx "chan_FSK" with _ | v
  · simp [mergeFSK, hm]
  · cases v with
    | obj m => simp [mergeFSK, hm, mapGet_mapSet_ne _ _ _ _ hk]
    | b x => simp [mergeFSK, hm]
    | i x => simp [mergeFSK, hm]
    | s x => simp [mergeFSK, hm]

theorem mergeFSK_siblings (sx : ConfMap) (c : fskChannelConfig) (k : String) :
    SiblingsPreserved sx (mergeFSK sx c).1 k
      ["enable", "radio", "if", "bandwidth", "datarate"] := by
  by_cases hk : k = "chan_FSK"
  · subst hk
    rcases hm : mapGet sx "chan_FSK" with _ | v
    · exact Or.inl (by simp [mergeFSK, hm])
    · cases v with
      | obj m =>
        refine Or.inr ⟨m, setFSKFields m c, hm, ?_, setFSKFields_siblings m c⟩
        simp [mergeFSK, hm, mapGet_mapSet_self]
      | b x => exact Or.inl (by simp [mergeFSK, hm])
      | i x => exact Or.inl (by simp [mergeFSK, hm])
      | s x => exact Or.inl (by simp [mergeFSK, hm])
  · exact Or.inl (mergeFSK_frame sx c k hk)

/-- Packaging of the frame facts of one merge run. -/
theorem c3_build (gc : gatewayConfiguration) (s0 sfin g0 gfin : ConfMap)
    (hframe : ∀ k, (∀ p, p < gc.Radios.length → k ≠ radioKey p) →
       (∀ p, p < gc.MultiSFChannels.length → k ≠ multiSFKey p) →
       k ≠ "chan_Lora_std" → k ≠ "chan_FSK" →
       mapGet sfin k = mapGet s0 k)
    (hr : ∀ i, SiblingsPreserved s0 sfin (radioKey i) ["enable", "freq"])
    (hm : ∀ i, SiblingsPreserved s0 sfin (multiSFKey i) ["enable", "radio", "if"])
    (hstd : SiblingsPreserved s0 sfin "chan_Lora_std"
       ["enable", "radio", "if", "bandwidth", "spread_factor"])
    (hfsk : SiblingsPreserved s0 sfin "chan_FSK"
       ["enable", "radio", "if", "bandwidth", "datarate"])
    (hgw : ∀ k, k ≠ "gateway_ID" → mapGet gfin k = mapGet g0 k) :
    (∀ k, k ∉ touchedSXKeys gc → mapGet sfin k = mapGet s0 k) ∧
    (∀ i, SiblingsPreserved s0 sfin (radioKey i) ["enable", "freq"]) ∧
    (∀ i, SiblingsPreserved s0 sfin (multiSFKey i) ["enable", "radio", "if"]) ∧
    SiblingsPreserved s0 sfin "chan_Lora_std"
      ["enable", "radio", "if", "bandwidth", "spread_factor"] ∧
    SiblingsPreserved s0 sfin "chan_FSK"
      ["enable", "radio", "if", "bandwidth", "datarate"] ∧
    (∀ k, k ≠ "gateway_ID" → mapGet gfin k = mapGet g0 k) := by
  refine ⟨?_, hr, hm, hstd, hfsk, hgw⟩
  intro k hk
  simp only [touchedSXKeys, List.mem_append, List.mem_map, List.mem_range,
    List.mem_cons, List.mem_singleton, not_or, not_exists, not_and] at hk
  obtain ⟨⟨hk1, hk2⟩, hk3, hk4, _⟩ := hk
  exact hframe k (fun p hp he => hk1 p hp he.symm)
    (fun p hp he => hk2 p hp he.symm) hk3 hk4

/-- C3: the merge writes only the fixed key paths
`sx1301.radio_i.(enable|freq)`, `sx1301.chan_multiSF_i.(enable|radio|if)`,
`sx1301.chan_Lora_std.*`, `sx1301.chan_FSK.*` (with their fixed field sets)
and `gateway.gateway_ID`; every other key, including siblings inside touched
mapping nodes, keeps its value — also when the merge stops early with an
error. -/
theorem c3_merge_frame (mac : String) (config : configFile)
    (gc : gatewayConfiguration) :
    (∀ k, k ∉ touchedSXKeys gc →
       mapGet (mergeConfig mac config gc).1.SX1301Conf k =
         mapGet config.SX1301Conf k) ∧
    (∀ i, SiblingsPreserved config.SX1301Conf
       (mergeConfig mac config gc).1.SX1301Conf (radioKey i) ["enable", "freq"]) ∧
    (∀ i, SiblingsPreserved config.SX1301Conf
       (mergeConfig mac config gc).1.SX1301Conf (multiSFKey i)
       ["enable", "radio", "if"]) ∧
    SiblingsPreserved config.SX1301Conf (mergeConfig mac config gc).1.SX1301Conf
      "chan_Lora_std" ["enable", "radio", "if", "bandwidth", "spread_factor"] ∧
    SiblingsPreserved config.SX1301Conf (mergeConfig mac config gc).1.SX1301Conf
      "chan_FSK" ["enable", "radio", "if", "bandwidth", "datarate"] ∧
    (∀ k, k ≠ "gateway_ID" →
       mapGet (mergeConfig mac config gc).1.GatewayConf k =
         mapGet config.GatewayConf k) := by
  have F1 : ∀ k, (∀ p, p < gc.Radios.length → k ≠ radioKey p) →
      mapGet (mergeStage1 config gc) k = mapGet config.SX1301Conf k := by
    intro k hkp
    refine mergeRadiosAux_frame gc.Radios config.SX1301Conf 0 k ?_
    intro p hp
    rw [Nat.zero_add]
    exact hkp p hp
  have F2 : ∀ k, (∀ p, p < gc.MultiSFChannels.length → k ≠ multiSFKey p) →
      mapGet (mergeStage2 config gc) k = mapGet (mergeStage1 config gc) k := by
    intro k hkp
    refine mergeMultiSFAux_frame gc.MultiSFChannels _ 0 k ?_
    intro p hp
    rw [Nat.zero_add]
    exact hkp p hp
  have F3 : ∀ k, k ≠ "chan_Lora_std" →
      mapGet (mergeStage3 config gc) k = mapGet (mergeStage2 config gc) k :=
    fun k hk => mergeStd_frame (mergeStage2 config gc) gc.LoRaSTDChannelConfig k hk
  have F4 : ∀ k, k ≠ "chan_FSK" →
      mapGet (mergeStage4 config gc) k = mapGet (mergeStage3 config gc) k :=
    fun k hk => mergeFSK_frame (mergeStage3 config gc) gc.FSKChannelConfig k hk
  have G2 : ∀ k, (∀ p, p < gc.Radios.length → k ≠ radioKey p) →
      (∀ p, p < gc.MultiSFChannels.length → k ≠ multiSFKey p) →
      mapGet (mergeStage2 config gc) k = mapGet config.SX1301Conf k :=
    fun k h1 h2 => (F2 k h2).trans (F1 k h1)
  have G3 : ∀ k, (∀ p, p < gc.Radios.length → k ≠ radioKey p) →
      (∀ p, p < gc.MultiSFChannels.length → k ≠ multiSFKey p) →
      k ≠ "chan_Lora_std" →
      mapGet (mergeStage3 config gc) k = mapGet config.SX1301Conf k :=
    fun k h1 h2 h3 => (F3 k h3).trans (G2 k h1 h2)
  have G4 : ∀ k, (∀ p, p < gc.Radios.length → k ≠ radioKey p) →
      (∀ p, p < gc.MultiSFChannels.length → k ≠ multiSFKey p) →
      k ≠ "chan_Lora_std" → k ≠ "chan_FSK" →
      mapGet (mergeStage4 config gc) k = mapGet config.SX1301Conf k :=
    fun k h1 h2 h3 h4 => (F4 k h4).trans (G3 k h1 h2 h3)
  -- sibling preservation composed through the stages, per fixed key family
  have R1 : ∀ i, SiblingsPreserved config.SX1301Conf (mergeStage1 config gc)
      (radioKey i) ["enable", "freq"] :=
    fun i => mergeRadiosAux_siblings gc.Radios config.SX1301Conf 0 (radioKey i)
  have R2 : ∀ i, SiblingsPreserved config.SX1301Conf (mergeStage2 config gc)
      (radioKey i) ["enable", "freq"] :=
    fun i => SiblingsPreserved_trans (R1 i)
      (Or.inl (F2 _ (fun p _ => radioKey_ne_multiSFKey i p)))
  have R3 : ∀ i, SiblingsPreserved config.SX1301Conf (mergeStage3 config gc)
      (radioKey i) ["enable", "freq"] :=
    fun i => SiblingsPreserved_trans (R2 i) (Or.inl (F3 _ (radioKey_ne_std i)))
  have R4 : ∀ i, SiblingsPreserved config.SX1301Conf (mergeStage4 config gc)
      (radioKey i) ["enable", "freq"] :=
    fun i => SiblingsPreserved_trans (R3 i) (Or.inl (F4 _ (radioKey_ne_fsk i)))
  have M1 : ∀ i, SiblingsPreserved config.SX1301Conf (mergeStage1 config gc)
      (multiSFKey i) ["enable", "radio", "if"] :=
    fun i => Or.inl (F1 _ (fun p _ => (radioKey_ne_multiSFKey p i).symm))
  have M2 : ∀ i, SiblingsPreserved config.SX1301Conf (mergeStage2 config gc)
      (multiSFKey i) ["enable", "radio", "if"] :=
    fun i => SiblingsPreserved_trans (M1 i)
      (mergeMultiSFAux_siblings gc.MultiSFChannels (mergeStage1 config gc) 0
        (multiSFKey i))
  have M3 : ∀ i, SiblingsPreserved config.SX1301Conf (mergeStage3 config gc)
      (multiSFKey i) ["enable", "radio", "if"] :=
    fun i => SiblingsPreserved_trans (M2 i) (Or.inl (F3 _ (multiSFKey_ne_std i)))
  have M4 : ∀ i, SiblingsPreserved config.SX1301Conf (mergeStage4 config gc)
      (multiSFKey i) ["enable", "radio", "if"] :=
    fun i => SiblingsPreserved_trans (M3 i) (Or.inl (F4 _ (multiSFKey_ne_fsk i)))
  have S1 : SiblingsPreserved config.SX1301Conf (mergeStage1 config gc)
      "chan_Lora_std" ["enable", "radio", "if", "bandwidth", "spread_factor"] :=
    Or.inl (F1 _ (fun p _ => (radioKey_ne_std p).symm))
  have S2 : SiblingsPreserved config.SX1301Conf (mergeStage2 config gc)
      "chan_Lora_std" ["enable", "radio", "if", "bandwidth", "spread_factor"] :=
    SiblingsPreserved_trans S1
      (Or.inl (F2 _ (fun p _ => (multiSFKey_ne_std p).symm)))
  have S3 : SiblingsPreserved config.SX1301Conf (mergeStage3 config gc)
      "chan_Lora_std" ["enable", "radio", "if", "bandwidth", "spread_factor"] :=
    SiblingsPreserved_trans S2
      (mergeStd_siblings (mergeStage2 config gc) gc.LoRaSTDChannelConfig
        "chan_Lora_std")
  have S4 : SiblingsPreserved config.SX1301Conf (mergeStage4 config gc)
      "chan_Lora_std" ["enable", "radio", "if", "bandwidth", "spread_factor"] :=
    SiblingsPreserved_trans S3 (Or.inl (F4 _ (by decide)))
  have K1 : SiblingsPreserved config.SX1301Conf (mergeStage1 config gc)
      "chan_FSK" ["enable", "radio", "if", "bandwidth", "datarate"] :=
    Or.inl (F1 _ (fun p _ => (radioKey_ne_fsk p).symm))
  have K2 : SiblingsPreserved config.SX1301Conf (mergeStage2 config gc)
      "chan_FSK" ["enable", "radio", "if", "bandwidth", "datarate"] :=
    SiblingsPreserved_trans K1
      (Or.inl (F2 _ (fun p _ => (multiSFKey_ne_fsk p).symm)))
  have K3 : SiblingsPreserved config.SX1301Conf (mergeStage3 config gc)
      "chan_FSK" ["enable", "radio", "if", "bandwidth", "datarate"] :=
    SiblingsPreserved_trans K2 (Or.inl (F3 _ (by decide)))
  have K4 : SiblingsPreserved config.SX1301Conf (mergeStage4 config gc)
      "chan_FSK" ["enable", "radio", "if", "bandwidth", "datarate"] :=
    SiblingsPreserved_trans K3
      (mergeFSK_siblings (mergeStage3 config gc) gc.FSKChannelConfig "chan_FSK")
  rcases h1 : (mergeRadiosAux config.SX1301Conf 0 gc.Radios).2 with _ | e1
  case some =>
    have hmc : mergeConfig mac config gc =
        ({ config with SX1301Conf := mergeStage1 config gc }, some e1) := by
      simp only [mergeConfig]
      rw [h1]
      rfl
    rw [hmc]
    exact c3_build gc config.SX1301Conf (mergeStage1 config gc)
      config.GatewayConf config.GatewayConf
      (fun k hk _ _ _ => F1 k hk) R1 M1 S1 K1 (fun k _ => rfl)
  case none =>
  rcases h2 : (mergeMultiSFAux (mergeRadiosAux config.SX1301Conf 0 gc.Radios).1
    0 gc.MultiSFChannels).2 with _ | e2
  case some =>
    have hmc : mergeConfig mac config gc =
        ({ config with SX1301Conf := mergeStage2 config gc }, some e2) := by
      simp only [mergeConfig]
      rw [h1, h2]
      rfl
    rw [hmc]
    exact c3_build gc config.SX1301Conf (mergeStage2 config gc)
      config.GatewayConf config.GatewayConf
      (fun k hk1 hk2 _ _ => G2 k hk1 hk2) R2 M2 S2 K2 (fun k _ => rfl)
  case none =>
  rcases h3 : (mergeStd (mergeMultiSFAux (mergeRadiosAux config.SX1301Conf
    0 gc.Radios).1 0 gc.MultiSFChannels).1 gc.LoRaSTDChannelConfig).2 with _ | e3
  case some =>
    have hmc : mergeConfig mac config gc =
        ({ config with SX1301Conf := mergeStage3 config gc }, some e3) := by
      simp only [mergeConfig]
      rw [h1, h2, h3]
      rfl
    rw [hmc]
    exact c3_build gc config.SX1301Conf (mergeStage3 config gc)
      config.GatewayConf config.GatewayConf
      (fun k hk1 hk2 hk3 _ => G3 k hk1 hk2 hk3) R3 M3 S3 K3 (fun k _ => rfl)
  case none =>
  rcases h4 : (mergeFSK (mergeStd (mergeMultiSFAux (mergeRadiosAux
    config.SX1301Conf 0 gc.Radios).1 0 gc.MultiSFChannels).1
    gc.LoRaSTDChannelConfig).1 gc.FSKChannelConfig).2 with _ | e4
  case some =>
    have hmc : mergeConfig mac config gc =
        ({ config with SX1301Conf := mergeStage4 config gc }, some e4) := by
      simp only [mergeConfig]
      rw [h1, h2, h3, h4]
      rfl
    rw [hmc]
    exact c3_build gc config.SX1301Conf (mergeStage4 config gc)
      config.GatewayConf config.GatewayConf G4 R4 M4 S4 K4 (fun k _ => rfl)
  case none =>
    have hmc : mergeConfig mac config gc =
        ({ SX1301Conf := mergeStage4 config gc
           GatewayConf := mapSet config.GatewayConf "gateway_ID" (Node.s mac) },
         none) := by
      simp only [mergeConfig]
      rw [h1, h2, h3, h4]
      rfl
    rw [hmc]
    exact c3_build gc config.SX1301Conf (mergeStage4 config gc)
      config.GatewayConf (mapSet config.GatewayConf "gateway_ID" (Node.s mac))
      G4 R4 M4 S4 K4 (fun k hk => mapGet_mapSet_ne _ _ _ _ hk)

/-- Witness for C3: on a concrete document, the merge leaves an extra
calibration key, the `type` sibling inside `radio_0`, and a foreign
`gateway_conf` key untouched. -/
theorem c3_witness :
    mapGet (mergeConfig "aa555500001111ff" c3Doc c9GC).1.SX1301Conf "extra_cal" =
      mapGet c3Doc.SX1301Conf "extra_cal" ∧
    SiblingsPreserved c3Doc.SX1301Conf
      (mergeConfig "aa555500001111ff" c3Doc c9GC).1.SX1301Conf (radioKey 0)
      ["enable", "freq"] ∧
    mapGet (mergeConfig "aa555500001111ff" c3Doc c9GC).1.GatewayConf "server" =
      mapGet c3Doc.GatewayConf "server" := by
  have H := c3_merge_frame "aa555500001111ff" c3Doc c9GC
  exact ⟨H.1 "extra_cal" (by decide), H.2.1 0, H.2.2.2.2.2 "server" (by decide)⟩

/-- A failing radio loop stops at the first index `j` whose node is absent or
not a mapping, reports `radio_<idx+j>`, and returns the map obtained by
successfully applying the first `j` iterations — nothing rolled back. -/
theorem mergeRadiosAux_error :
    ∀ (rs : List radioConfig) (sx sx' : ConfMap) (idx : Nat) (p : String),
      mergeRadiosAux sx idx rs = (sx', some p) →
      ∃ j, j < rs.length ∧ p = radioKey (idx + j) ∧
        (∀ m, mapGet sx' (radioKey (idx + j)) ≠ some (Node.obj m)) ∧
        mergeRadiosAux sx idx (rs.take j) = (sx', none)
  | [], sx, sx', idx, p, h => by
    rw [mergeRadiosAux, Prod.mk.injEq] at h
    exact absurd h.2 (by simp)
  | r :: rest, sx, sx', idx, p, h => by
    rcases hm : mapGet sx (radioKey idx) with _ | v
    · simp only [mergeRadiosAux, hm, Prod.mk.injEq] at h
      obtain ⟨h1, h2⟩ := h
      subst h1
      obtain rfl := Option.some.inj h2
      refine ⟨0, by simp, rfl, ?_, rfl⟩
      intro m hcontra
      rw [show idx + 0 = idx from rfl, hm] at hcontra
      cases hcontra
    · cases v with
      | obj m =>
        simp only [mergeRadiosAux, hm] at h
        obtain ⟨j, hj, hp, hnode, htake⟩ := mergeRadiosAux_error rest _ sx' (idx + 1) p h
        refine ⟨j + 1, Nat.succ_lt_succ hj, ?_, ?_, ?_⟩
        · rw [hp]
          congr 1
          omega
        · rw [show idx + (j + 1) = idx + 1 + j from by omega]
          exact hnode
        · rw [List.take_succ_cons]
          simp only [mergeRadiosAux, hm]
          exact htake
      | b x =>
        simp only [mergeRadiosAux, hm, Prod.mk.injEq] at h
        obtain ⟨h1, h2⟩ := h
        subst h1
        obtain rfl := Option.some.inj h2
        refine ⟨0, by simp, rfl, ?_, rfl⟩
        intro m hcontra
        rw [show idx + 0 = idx from rfl, hm] at hcontra
        cases hcontra
      | i x =>
        simp only [mergeRadiosAux, hm, Prod.mk.injEq] at h
        obtain ⟨h1, h2⟩ := h
        subst h1
        obtain rfl := Option.some.inj h2
        refine ⟨0, by simp, rfl, ?_, rfl⟩
        intro m hcontra
        rw [show idx + 0 = idx from rfl, hm] at hcontra
        cases hcontra
      | s x =>
        simp only [mergeRadiosAux, hm, Prod.mk.injEq] at h
        obtain ⟨h1, h2⟩ := h
        subst h1
        obtain rfl := Option.some.inj h2
        refine ⟨0, by simp, rfl, ?_, rfl⟩
        intro m hcontra
        rw [show idx + 0 = idx from rfl, hm] at hcontra
        cases hcontra

/-- A failing multi-SF loop stops at the first index `j` whose node is absent
or not a mapping, reports `chan_multiSF_<idx+j>`, and returns the map after
the first `j` successful iterations. -/
theorem mergeMultiSFAux_error :
    ∀ (cs : List multiSFChannelConfig) (sx sx' : ConfMap) (idx : Nat) (p : String),
      mergeMultiSFAux sx idx cs = (sx', some p) →
      ∃ j, j < cs.length ∧ p = multiSFKey (idx + j) ∧
        (∀ m, mapGet sx' (multiSFKey (idx + j)) ≠ some (Node.obj m)) ∧
        mergeMultiSFAux sx idx (cs.take j) = (sx', none)
  | [], sx, sx', idx, p, h => by
    rw [mergeMultiSFAux, Prod.mk.injEq] at h
    exact absurd h.2 (by simp)
  | c :: rest, sx, sx', idx, p, h => by
    rcases hm : mapGet sx (multiSFKey idx) with _ | v
    · simp only [mergeMultiSFAux, hm, Prod.mk.injEq] at h
      obtain ⟨h1, h2⟩ := h
      subst h1
      obtain rfl := Option.some.inj h2
      refine ⟨0, by simp, rfl, ?_, rfl⟩
      intro m hcontra
      rw [show idx + 0 = idx from rfl, hm] at hcontra
      cases hcontra
    · cases v with
      | obj m =>
        simp only [mergeMultiSFAux, hm] at h
        obtain ⟨j, hj, hp, hnode, htake⟩ := mergeMultiSFAux_error rest _ sx' (idx + 1) p h
        refine ⟨j + 1, Nat.succ_lt_succ hj, ?_, ?_, ?_⟩
        · rw [hp]
          congr 1
          omega
        · rw [show idx + (j + 1) = idx + 1 + j from by omega]
          exact hnode
        · rw [List.take_succ_cons]
          simp only [mergeMultiSFAux, hm]
          exact htake
      | b x =>
        simp only [mergeMultiSFAux, hm, Prod.mk.injEq] at h
        obtain ⟨h1, h2⟩ := h
        subst h1
        obtain rfl := Option.some.inj h2
        refine ⟨0, by simp, rfl, ?_, rfl⟩
        intro m hcontra
        rw [show idx + 0 = idx from rfl, hm] at hcontra
        cases hcontra
      | i x =>
        simp only [mergeMultiSFAux, hm, Prod.mk.injEq] at h
        obtain ⟨h1, h2⟩ := h
        subst h1
        obtain rfl := Option.some.inj h2
        refine ⟨0, by simp, rfl, ?_, rfl⟩
        intro m hcontra
        rw [show idx + 0 = idx from rfl, hm] at hcontra
        cases hcontra
      | s x =>
        simp only [mergeMultiSFAux, hm, Prod.mk.injEq] at h
        obtain ⟨h1, h2⟩ := h
        subst h1
        obtain rfl := Option.some.inj h2
        refine ⟨0, by simp, rfl, ?_, rfl⟩
        intro m hcontra
        rw [show idx + 0 = idx from rfl, hm] at hcontra
        cases hcontra

/-- A failing `chan_Lora_std` step reports that path, leaves the map
unchanged, and fails precisely because the node is absent or not a mapping. -/
theorem mergeStd_error (sx sx' : ConfMap) (c : loRaSTDChannelConfig) (p : String)
    (h : mergeStd sx c = (sx', some p)) :
    sx' = sx ∧ p = "chan_Lora_std" ∧
      ∀ m, mapGet sx "chan_Lora_std" ≠ some (Node.obj m) := by
  rcases hm : mapGet sx "chan_Lora_std" with _ | v
  · simp only [mergeStd, hm, Prod.mk.injEq] at h
    refine ⟨h.1.symm, (Option.some.inj h.2).symm, ?_⟩
    intro m hcontra
    cases hcontra
  · cases v with
    | obj m =>
      simp only [mergeStd, hm, Prod.mk.injEq] at h
      exact absurd h.2 (by simp)
    | b x =>
      simp only [mergeStd, hm, Prod.mk.injEq] at h
      refine ⟨h.1.symm, (Option.some.inj h.2).symm, ?_⟩
      intro m hcontra
      cases hcontra
    | i x =>
      simp only [mergeStd, hm, Prod.mk.injEq] at h
      refine ⟨h.1.symm, (Option.some.inj h.2).symm, ?_⟩
      intro m hcontra
      cases hcontra
    | s x =>
      simp only [mergeStd, hm, Prod.mk.injEq] at h
      refine ⟨h.1.symm, (Option.some.inj h.2).symm, ?_⟩
      intro m hcontra
      cases hcontra

/-- A failing `chan_FSK` step reports that path, leaves the map unchanged,
and fails precisely because the node is absent or not a mapping. -/
theorem mergeFSK_error (sx sx' : ConfMap) (c : fskChannelConfig) (p : String)
    (h : mergeFSK sx c = (sx', some p)) :
    sx' = sx ∧ p = "chan_FSK" ∧
      ∀ m, mapGet sx "chan_FSK" ≠ some (Node.obj m) := by
  rcases hm : mapGet sx "chan_FSK" with _ | v
  · simp only [mergeFSK, hm, Prod.mk.injEq] at h
    refine ⟨h.1.symm, (Option.some.inj h.2).symm, ?_⟩
    intro m hcontra
    cases hcontra
  · cases v with
    | obj m =>
      simp only [mergeFSK, hm, Prod.mk.injEq] at h
      exact absurd h.2 (by simp)
    | b x =>
      simp only [mergeFSK, hm, Prod.mk.injEq] at h
      refine ⟨h.1.symm, (Option.some.inj h.2).symm, ?_⟩
      intro m hcontra
      cases hcontra
    | i x =>
      simp only [mergeFSK, hm, Prod.mk.injEq] at h
      refine ⟨h.1.symm, (Option.some.inj h.2).symm, ?_⟩
      intro m hcontra
      cases hcontra
    | s x =>
      simp only [mergeFSK, hm, Prod.mk.injEq] at h
      refine ⟨h.1.symm, (Option.some.inj h.2).symm, ?_⟩
      intro m hcontra
      cases hcontra

/-- C9: whichever fixed path the merge fails at — a `radio_<i>`, a
`chan_multiSF_<i>`, `chan_Lora_std` or `chan_FSK` whose node is absent or
not a mapping — it returns an error naming exactly that path, and the
returned document is the map after every step already applied (the failing
step writes nothing, earlier writes are not rolled back). -/
theorem c9_merge_no_rollback (mac : String) (config : configFile)
    (gc : gatewayConfiguration) :
    (∀ sx p, mergeRadiosAux config.SX1301Conf 0 gc.Radios = (sx, some p) →
       mergeConfig mac config gc = ({ config with SX1301Conf := sx }, some p) ∧
       ∃ j, j < gc.Radios.length ∧ p = radioKey j ∧
         (∀ m, mapGet sx (radioKey j) ≠ some (Node.obj m)) ∧
         mergeRadiosAux config.SX1301Conf 0 (gc.Radios.take j) = (sx, none)) ∧
    (∀ sx1 sx p, mergeRadiosAux config.SX1301Conf 0 gc.Radios = (sx1, none) →
       mergeMultiSFAux sx1 0 gc.MultiSFChannels = (sx, some p) →
       mergeConfig mac config gc = ({ config with SX1301Conf := sx }, some p) ∧
       ∃ j, j < gc.MultiSFChannels.length ∧ p = multiSFKey j ∧
         (∀ m, mapGet sx (multiSFKey j) ≠ some (Node.obj m)) ∧
         mergeMultiSFAux sx1 0 (gc.MultiSFChannels.take j) = (sx, none)) ∧
    (∀ sx1 sx2 sx p, mergeRadiosAux config.SX1301Conf 0 gc.Radios = (sx1, none) →
       mergeMultiSFAux sx1 0 gc.MultiSFChannels = (sx2, none) →
       mergeStd sx2 gc.LoRaSTDChannelConfig = (sx, some p) →
       mergeConfig mac config gc = ({ config with SX1301Conf := sx }, some p) ∧
       p = "chan_Lora_std" ∧ sx = sx2 ∧
       ∀ m, mapGet sx2 "chan_Lora_std" ≠ some (Node.obj m)) ∧
    (∀ sx1 sx2 sx3 sx p,
       mergeRadiosAux config.SX1301Conf 0 gc.Radios = (sx1, none) →
       mergeMultiSFAux sx1 0 gc.MultiSFChannels = (sx2, none) →
       mergeStd sx2 gc.LoRaSTDChannelConfig = (sx3, none) →
       mergeFSK sx3 gc.FSKChannelConfig = (sx, some p) →
       mergeConfig mac config gc = ({ config with SX1301Conf := sx }, some p) ∧
       p = "chan_FSK" ∧ sx = sx3 ∧
       ∀ m, mapGet sx3 "chan_FSK" ≠ some (Node.obj m)) := by
  refine ⟨?_, ?_, ?_, ?_⟩
  · intro sx p h
    have ha : (mergeRadiosAux config.SX1301Conf 0 gc.Radios).2 = some p := by rw [h]
    have hb : (mergeRadiosAux config.SX1301Conf 0 gc.Radios).1 = sx := by rw [h]
    constructor
    · simp only [mergeConfig]
      rw [ha, hb]
    · obtain ⟨j, hj, hp, hnode, htake⟩ :=
        mergeRadiosAux_error gc.Radios config.SX1301Conf sx 0 p h
      rw [Nat.zero_add] at hp hnode
      exact ⟨j, hj, hp, hnode, htake⟩
  · intro sx1 sx p h1 h2
    have h1a : (mergeRadiosAux config.SX1301Conf 0 gc.Radios).2 = none := by rw [h1]
    have h1b : (mergeRadiosAux config.SX1301Conf 0 gc.Radios).1 = sx1 := by rw [h1]
    have h2a : (mergeMultiSFAux sx1 0 gc.MultiSFChannels).2 = some p := by rw [h2]
    have h2b : (mergeMultiSFAux sx1 0 gc.MultiSFChannels).1 = sx := by rw [h2]
    constructor
    · simp only [mergeConfig]
      rw [h1a, h1b, h2a, h2b]
    · obtain ⟨j, hj, hp, hnode, htake⟩ :=
        mergeMultiSFAux_error gc.MultiSFChannels sx1 sx 0 p h2
      rw [Nat.zero_add] at hp hnode
      exact ⟨j, hj, hp, hnode, htake⟩
  · intro sx1 sx2 sx p h1 h2 h3
    obtain ⟨hsx, hp, hnode⟩ := mergeStd_error sx2 sx gc.LoRaSTDChannelConfig p h3
    have h1a : (mergeRadiosAux config.SX1301Conf 0 gc.Radios).2 = none := by rw [h1]
    have h1b : (mergeRadiosAux config.SX1301Conf 0 gc.Radios).1 = sx1 := by rw [h1]
    have h2a : (mergeMultiSFAux sx1 0 gc.MultiSFChannels).2 = none := by rw [h2]
    have h2b : (mergeMultiSFAux sx1 0 gc.MultiSFChannels).1 = sx2 := by rw [h2]
    have h3a : (mergeStd sx2 gc.LoRaSTDChannelConfig).2 = some p := by rw [h3]
    have h3b : (mergeStd sx2 gc.LoRaSTDChannelConfig).1 = sx := by rw [h3]
    refine ⟨?_, hp, hsx, hnode⟩
    simp only [mergeConfig]
    rw [h1a, h1b, h2a, h2b, h3a, h3b]
  · intro sx1 sx2 sx3 sx p h1 h2 h3 h4
    obtain ⟨hsx, hp, hnode⟩ := mergeFSK_error sx3 sx gc.FSKChannelConfig p h4
    have h1a : (mergeRadiosAux config.SX1301Conf 0 gc.Radios).2 = none := by rw [h1]
    have h1b : (mergeRadiosAux config.SX1301Conf 0 gc.Radios).1 = sx1 := by rw [h1]
    have h2a : (mergeMultiSFAux sx1 0 gc.MultiSFChannels).2 = none := by rw [h2]
    have h2b : (mergeMultiSFAux sx1 0 gc.MultiSFChannels).1 = sx2 := by rw [h2]
    have h3a : (mergeStd sx2 gc.LoRaSTDChannelConfig).2 = none := by rw [h3]
    have h3b : (mergeStd sx2 gc.LoRaSTDChannelConfig).1 = sx3 := by rw [h3]
    have h4a : (mergeFSK sx3 gc.FSKChannelConfig).2 = some p := by rw [h4]
    have h4b : (mergeFSK sx3 gc.FSKChannelConfig).1 = sx := by rw [h4]
    refine ⟨?_, hp, hsx, hnode⟩
    simp only [mergeConfig]
    rw [h1a, h1b, h2a, h2b, h3a, h3b, h4a, h4b]

/-- Witness for C9 at two concrete failures.  Mid-loop radio failure: with
two radios to write and `radio_1` missing, the merge fails naming `radio_1`
while the returned document keeps the fresh `radio_0` write (`freq` was 0).
`chan_Lora_std` failure: with that node missing, the merge fails naming it
after the radio write was applied. -/
theorem c9_witness :
    mergeConfig "aa555500001111ff" c9Doc2 c9GC2 =
      ({ c9Doc2 with SX1301Conf := c9Sx2 }, some "radio_1") ∧
    mapGet c9Sx2 "radio_0" =
      some (Node.obj [("enable", Node.b true), ("freq", Node.i 868500000)]) ∧
    mapGet c9Doc2.SX1301Conf "radio_0" =
      some (Node.obj [("enable", Node.b false), ("freq", Node.i 0)]) ∧
    mergeConfig "aa555500001111ff" c9Doc c9GC =
      ({ c9Doc with SX1301Conf := c9Sx1 }, some "chan_Lora_std") ∧
    mapGet c9Sx1 "radio_0" = some (Node.obj
      [("enable", Node.b true), ("freq", Node.i 868500000),
       ("type", Node.s "SX1257")]) :=
  ⟨((c9_merge_no_rollback "aa555500001111ff" c9Doc2 c9GC2).1 c9Sx2 "radio_1"
      rfl).1,
   rfl, rfl,
   ((c9_merge_no_rollback "aa555500001111ff" c9Doc c9GC).2.2.1 c9Sx1 c9Sx1 c9Sx1
      "chan_Lora_std" rfl rfl rfl).1,
   rfl⟩

/-- Witness for C4 at the example plan. -/
theorem c4_witness :
    (∀ c : Channel, minRadioCenterFreq c =
       c.Frequency - c.Bandwidth * 1000 / 2 +
         lookupRadioBandwidth (c.Bandwidth * 1000) / 2) ∧
    ∃ l, List.Perm l examplePlan ∧ channelsSorted l ∧
      GatewayConfigResult examplePlan (getGatewayConfigSorted l) :=
  c4_sorted_ascending examplePlan

end PFConfig
